import Mathlib

/-!
# TracesEditor — DICOM protocol engine: verification of spec claims

Shallow embedding of the DICOM traffic synthesis/extraction core of the
TracesEditor repository (backend/protocols/dicom/{handler,dataset_builder,
scene_processor}.py and backend/dicom_pcap_extractor.py), together with
theorems settling the frozen claims about it.

Bytes are modelled as `Nat` values (0–255 in all produced data), byte strings
as `List Nat`.  Python dictionaries are modelled as insertion-ordered
association lists.  Randomness (`random.randint`, `pydicom.uid.generate_uid`,
`random.choice`) is modelled by threading an explicit generator counter.
-/

namespace TracesEditor

/-! ## Byte-level helpers -/

/-- Big-endian 4-byte encoding of a natural number (struct.pack of an
unsigned 32-bit int, as used for PDU and PDV length fields). -/
def beU32 (n : Nat) : List Nat :=
  [n / 2 ^ 24 % 256, n / 2 ^ 16 % 256, n / 2 ^ 8 % 256, n % 256]

/-- Big-endian 4-byte decode (struct.unpack of `>I`). -/
def beU32dec (b0 b1 b2 b3 : Nat) : Nat :=
  b0 * 2 ^ 24 + b1 * 2 ^ 16 + b2 * 2 ^ 8 + b3

/-- A string's bytes (all source data is ASCII). -/
def strBytes (s : String) : List Nat :=
  s.toList.map Char.toNat

/-- Bytes decoded back to a string (`bytes.decode('ascii', errors='ignore')`:
values ≥ 128 are dropped). -/
def bytesToStr (bs : List Nat) : String :=
  String.mk ((bs.filter (fun b => b < 128)).map Char.ofNat)

def isSpaceByte (c : Char) : Bool :=
  c = ' ' || c = '\t' || c = '\n' || c = '\r'

/-- Python `str.strip()`: drop leading and trailing whitespace. -/
def pyStrip (s : String) : String :=
  String.mk (((s.toList.dropWhile isSpaceByte).reverse.dropWhile isSpaceByte).reverse)

/-- A 16-byte DICOM AE-title field: ASCII bytes, space padded / truncated
to exactly 16 bytes (pynetdicom's fixed field encoding). -/
def aeField (s : String) : List Nat :=
  (strBytes s ++ List.replicate 16 32).take 16

/-! ## TCP session synthesizer (backend/protocols/dicom/handler.py,
`generate_dicom_session_packet_list`)

A packet keeps the TCP-level fields the claims are about; the Ether/IP
layers are determined by the direction (`fromClient`), since the function
builds exactly two fixed Ether/IP headers, one per direction.  `flags` is
the Scapy flag string exactly as passed in the source (`'S'`, `'SA'`,
`'A'`, `'PA'`, `'FA'`); a TCP layer built without an `ack=` argument has
acknowledgment number 0 (Scapy's default). -/

structure TcpPacket where
  fromClient : Bool
  flags : String
  seq : Nat
  ack : Nat
  payload : List Nat
  deriving Repr, DecidableEq

/-- The per-payload loop of `generate_dicom_session_packet_list`
(handler.py lines 219–228): for each P-DATA-TF PDU a PSH/ACK segment from
the client followed by a pure ACK from the server.  Returns the emitted
packets and the final client sequence number. -/
def pDataSegments (scpSeq : Nat) : Nat → List (List Nat) → List TcpPacket × Nat
  | scuSeq, [] => ([], scuSeq)
  | scuSeq, pdu :: rest =>
    let dataPkt : TcpPacket := ⟨true, "PA", scuSeq, scpSeq, pdu⟩
    let scuSeq' := scuSeq + pdu.length
    let ackPkt : TcpPacket := ⟨false, "A", scpSeq, scuSeq', []⟩
    let (tail, finalSeq) := pDataSegments scpSeq scuSeq' rest
    (dataPkt :: ackPkt :: tail, finalSeq)

/-- `generate_dicom_session_packet_list` (handler.py lines 141–250):
three-way handshake, A-ASSOCIATE-RQ segment + ACK, A-ASSOCIATE-AC
segment + ACK, one PSH/ACK + ACK pair per P-DATA-TF PDU, then the
four-way teardown.  Sequence/ack arithmetic follows the source exactly. -/
def generate_dicom_session_packet_list
    (associateRqPduBytes : List Nat)
    (associateAcPduBytes : List Nat)
    (pDataTfPduList : List (List Nat))
    (clientIsn : Nat := 1000)
    (serverIsn : Nat := 2000) : List TcpPacket :=
  -- handshake
  let scuSeq := clientIsn
  let scpSeq := serverIsn
  let synPkt : TcpPacket := ⟨true, "S", scuSeq, 0, []⟩
  let scuSeq := scuSeq + 1
  let synAckPkt : TcpPacket := ⟨false, "SA", scpSeq, scuSeq, []⟩
  let scpSeq := scpSeq + 1
  let ackHandshake : TcpPacket := ⟨true, "A", scuSeq, scpSeq, []⟩
  -- A-ASSOCIATE-RQ and its ACK
  let assocRqPkt : TcpPacket := ⟨true, "PA", scuSeq, scpSeq, associateRqPduBytes⟩
  let scuSeq := scuSeq + associateRqPduBytes.length
  let ackForRq : TcpPacket := ⟨false, "A", scpSeq, scuSeq, []⟩
  -- A-ASSOCIATE-AC and its ACK
  let assocAcPkt : TcpPacket := ⟨false, "PA", scpSeq, scuSeq, associateAcPduBytes⟩
  let scpSeq := scpSeq + associateAcPduBytes.length
  let ackForAc : TcpPacket := ⟨true, "A", scuSeq, scpSeq, []⟩
  -- P-DATA-TF segments
  let (dataPkts, scuSeq) := pDataSegments scpSeq scuSeq pDataTfPduList
  -- teardown
  let finScu : TcpPacket := ⟨true, "FA", scuSeq, scpSeq, []⟩
  let scuSeq := scuSeq + 1
  let ackScpFin : TcpPacket := ⟨false, "A", scpSeq, scuSeq, []⟩
  let finScp : TcpPacket := ⟨false, "FA", scpSeq, scuSeq, []⟩
  let scpSeq := scpSeq + 1
  let ackScuFin : TcpPacket := ⟨true, "A", scuSeq, scpSeq, []⟩
  [synPkt, synAckPkt, ackHandshake, assocRqPkt, ackForRq, assocAcPkt, ackForAc]
    ++ dataPkts ++ [finScu, ackScpFin, finScp, ackScuFin]

/-- Running ack-correctness check: walking the packet list in order with
`nextC`/`nextS` the next unconsumed sequence number of the client/server
(initially ISN + 1, the one sequence number the side's single initial SYN
consumes), every packet whose flag string carries `A` must acknowledge
exactly the peer's next unconsumed sequence number; payload bytes and FIN
flags each consume sequence numbers of the sender. -/
def checkAcks : Nat → Nat → List TcpPacket → Bool
  | _, _, [] => true
  | nextC, nextS, p :: rest =>
    let expected := if p.fromClient then nextS else nextC
    let okHere := !(p.flags.data.contains 'A') || decide (p.ack = expected)
    let consumed := p.payload.length + (if p.flags.data.contains 'F' then 1 else 0)
    let nextC' := if p.fromClient then nextC + consumed else nextC
    let nextS' := if p.fromClient then nextS else nextS + consumed
    okHere && checkAcks nextC' nextS' rest

/-- Packets emitted by the per-payload loop: two per P-DATA-TF PDU. -/
theorem pDataSegments_length (scpSeq : Nat) :
    ∀ (pdus : List (List Nat)) (scuSeq : Nat),
      (pDataSegments scpSeq scuSeq pdus).1.length = 2 * pdus.length := by
  intro pdus
  induction pdus with
  | nil => intro scuSeq; simp [pDataSegments]
  | cons pdu rest ih =>
    intro scuSeq
    simp [pDataSegments, ih, Nat.mul_succ]

/-- The ack invariant survives the per-payload loop: if the loop is entered
with the next-unconsumed counters equal to the current seq counters, all
emitted data/ack packets acknowledge correctly and the remainder is checked
with the updated client counter. -/
theorem pDataSegments_checkAcks (scpSeq : Nat) :
    ∀ (pdus : List (List Nat)) (scuSeq : Nat) (rest : List TcpPacket),
      checkAcks (pDataSegments scpSeq scuSeq pdus).2 scpSeq rest = true →
      checkAcks scuSeq scpSeq ((pDataSegments scpSeq scuSeq pdus).1 ++ rest) = true := by
  intro pdus
  induction pdus with
  | nil => intro scuSeq rest h; simpa [pDataSegments] using h
  | cons pdu tl ih =>
    intro scuSeq rest h
    have hPA_A : ("PA".data.contains 'A') = true := by decide
    have hPA_F : ("PA".data.contains 'F') = false := by decide
    have hA_A : ("A".data.contains 'A') = true := by decide
    have hA_F : ("A".data.contains 'F') = false := by decide
    have := ih (scuSeq + pdu.length) rest h
    simp_all [pDataSegments, checkAcks]

/-- C6: the claim counts 11 packets for a session carrying a single 50-byte
client-to-server data payload, but the synthesizer unconditionally emits
the association-RQ and association-AC segments and their ACKs as well
(handler.py lines 201–217), so the session with one P-DATA payload has 13
packets, not 11. -/
theorem C6_counterexample :
    ¬ ((generate_dicom_session_packet_list [] [] [List.replicate 50 0]
        1000 2000).length = 11) := by
  decide

/-- C6 (amended): for client ISN 1000, server ISN 2000 and a single 50-byte
client-to-server P-DATA payload the synthesizer produces exactly 13 packets
(3 handshake, association-RQ segment + ACK, association-AC segment + ACK,
one PSH/ACK data segment answered by one pure ACK, 4 teardown packets); in
general the packet count is 11 + 2·N for N payload PDUs. -/
theorem C6_packet_count (rq ac : List Nat) (pdata : List (List Nat))
    (cIsn sIsn : Nat) :
    (generate_dicom_session_packet_list rq ac pdata cIsn sIsn).length
      = 11 + 2 * pdata.length
    ∧ (generate_dicom_session_packet_list [] [] [List.replicate 50 0]
        1000 2000).length = 13 := by
  constructor
  · simp [generate_dicom_session_packet_list, pDataSegments_length]
    omega
  · decide

/-- C7: in every synthesized TCP session — any initial sequence numbers, any
association PDU byte strings and any list of P-DATA payloads — every packet
carrying the ACK flag acknowledges exactly the peer's next unconsumed
sequence number: the peer's ISN, plus one for the peer's SYN, plus the
payload bytes the peer has sent so far, plus one for each FIN the peer has
sent so far (`checkAcks` walks the packet list accumulating exactly these
quantities). -/
theorem C7_ack_numbers_exact (rq ac : List Nat) (pdata : List (List Nat))
    (cIsn sIsn : Nat) :
    checkAcks (cIsn + 1) (sIsn + 1)
      (generate_dicom_session_packet_list rq ac pdata cIsn sIsn) = true := by
  have hS : ("S".data.contains 'A') = false := by decide
  have hSA_A : ("SA".data.contains 'A') = true := by decide
  have hSA_F : ("SA".data.contains 'F') = false := by decide
  have hA_A : ("A".data.contains 'A') = true := by decide
  have hA_F : ("A".data.contains 'F') = false := by decide
  have hPA_A : ("PA".data.contains 'A') = true := by decide
  have hPA_F : ("PA".data.contains 'F') = false := by decide
  have hFA_A : ("FA".data.contains 'A') = true := by decide
  have hFA_F : ("FA".data.contains 'F') = true := by decide
  simp only [generate_dicom_session_packet_list, List.cons_append, List.nil_append]
  simp [checkAcks, hS, hSA_A, hSA_F, hA_A, hA_F, hPA_A, hPA_F]
  apply pDataSegments_checkAcks
  simp [checkAcks, hFA_A, hFA_F, hA_A, hA_F]

/-! ## Traffic extractor: PDU stream reader
(backend/dicom_pcap_extractor.py, `read_pdu`)

An `io.BytesIO` over a fixed buffer: `read n` returns the next
`min n remaining` bytes and advances, `seek` is absolute, `tell` is `pos`. -/

structure ByteStream where
  data : List Nat
  pos : Nat
  deriving Repr, DecidableEq

def stream_read (s : ByteStream) (n : Nat) : List Nat × ByteStream :=
  let chunk := (s.data.drop s.pos).take n
  (chunk, ⟨s.data, s.pos + chunk.length⟩)

/-- `read_pdu` (dicom_pcap_extractor.py lines 103–133): read the 6-byte PDU
header (type, reserved, big-endian u32 length); with fewer than 6 bytes
return `None` (stream left where the short read put it); then read the
declared body; if the body is short, seek back to
`tell() - len(pdu_data) - 6` and return `None`; otherwise return
(type, length, body).  The `struct.error` branch is unreachable for a
6-byte header and is not modelled. -/
def read_pdu (s : ByteStream) : Option (Nat × Nat × List Nat) × ByteStream :=
  let (header, s1) := stream_read s 6
  if header.length < 6 then
    (none, s1)
  else
    let pduType := header.getD 0 0
    let pduLength := beU32dec (header.getD 2 0) (header.getD 3 0)
      (header.getD 4 0) (header.getD 5 0)
    let (pduData, s2) := stream_read s1 pduLength
    if pduData.length < pduLength then
      (none, ⟨s2.data, s2.pos - pduData.length - 6⟩)
    else
      (some (pduType, pduLength, pduData), s2)

/-- The body length a PDU header starting at the stream's current position
declares (bytes 2–5, big endian). -/
def pduDeclaredLength (s : ByteStream) : Nat :=
  beU32dec (s.data.getD (s.pos + 2) 0) (s.data.getD (s.pos + 3) 0)
    (s.data.getD (s.pos + 4) 0) (s.data.getD (s.pos + 5) 0)

/-! ## Traffic extractor: PDV message-control-header classification
(backend/dicom_pcap_extractor.py lines 316–318)

The extractor computes `is_command = (mch & 0x02) != 0` and
`is_last_fragment = (mch & 0x01) != 0`. -/

def extractor_pdv_is_command (mch : Nat) : Bool :=
  mch &&& 0x02 != 0

def extractor_pdv_is_last_fragment (mch : Nat) : Bool :=
  mch &&& 0x01 != 0

/-- Reading a slice of a stream indexes the underlying buffer. -/
theorem getD_drop_take (l : List Nat) (p n i : Nat) (h : i < n) :
    ((l.drop p).take n).getD i 0 = l.getD (p + i) 0 := by
  simp [List.getD_eq_getElem?_getD, List.getElem?_take, List.getElem?_drop, h]

/-- C10: when a complete 6-byte PDU header is read but its declared body
length exceeds the bytes remaining in the stream, `read_pdu` returns `None`
and the stream position is rewound exactly to the byte at which the header
began. -/
theorem C10_read_pdu_rewinds (s : ByteStream)
    (hHeader : s.pos + 6 ≤ s.data.length)
    (hLong : s.data.length - s.pos - 6 < pduDeclaredLength s) :
    read_pdu s = (none, ⟨s.data, s.pos⟩) := by
  have hHeaderLen : ((s.data.drop s.pos).take 6).length = 6 := by
    simp [List.length_take, List.length_drop]
    omega
  have hget : ∀ i, i < 6 →
      ((s.data.drop s.pos).take 6).getD i 0 = s.data.getD (s.pos + i) 0 :=
    fun i hi => getD_drop_take s.data s.pos 6 i hi
  unfold read_pdu stream_read
  simp only [hHeaderLen, Nat.lt_irrefl, if_false,
    hget 2 (by omega), hget 3 (by omega), hget 4 (by omega), hget 5 (by omega)]
  have hDecl : beU32dec (s.data.getD (s.pos + 2) 0) (s.data.getD (s.pos + 3) 0)
      (s.data.getD (s.pos + 4) 0) (s.data.getD (s.pos + 5) 0) = pduDeclaredLength s := rfl
  rw [hDecl]
  have hBodyLen : ((s.data.drop (s.pos + 6)).take (pduDeclaredLength s)).length
      = s.data.length - s.pos - 6 := by
    simp [List.length_take, List.length_drop]
    omega
  simp only [hBodyLen]
  rw [if_pos hLong]
  have : s.pos + 6 + (s.data.length - s.pos - 6) - (s.data.length - s.pos - 6) - 6
      = s.pos := by omega
  simp [this]

/-- C10 witness: a stream holding only the 6-byte header `[4,0,0,0,0,10]`
declares 10 body bytes but has none remaining; `read_pdu` returns `None`
with the position back at 0. -/
theorem C10_read_pdu_rewinds_witness :
    (⟨[4, 0, 0, 0, 0, 10], 0⟩ : ByteStream).pos + 6
        ≤ ([4, 0, 0, 0, 0, 10] : List Nat).length
    ∧ read_pdu ⟨[4, 0, 0, 0, 0, 10], 0⟩ = (none, ⟨[4, 0, 0, 0, 0, 10], 0⟩) := by
  refine ⟨by decide, C10_read_pdu_rewinds ⟨[4, 0, 0, 0, 0, 10], 0⟩ (by decide) ?_⟩
  decide

/-! ## Datasets and the dataset-content resolver
(backend/protocols/dicom/dataset_builder.py)

A pydicom `Dataset` is modelled as an insertion-ordered association list of
(tag keyword, element value); `setattr` updates an existing keyword in place
or appends.  (pydicom orders elements by tag number; none of the claims is
sensitive to element order, only to keyword lookup.) -/

mutual

inductive DicomValue where
  | str (s : String)
  | int (n : Int)
  | null
  | strs (l : List String)
  | seq (items : DsSeq)

/-- A sequence value: a list of item datasets (mutual with `DicomValue` so
that recursion over values is structural). -/
inductive DsSeq where
  | nil
  | cons (item : DsElems) (rest : DsSeq)

/-- The elements of one nested item dataset. -/
inductive DsElems where
  | nil
  | cons (kw : String) (v : DicomValue) (rest : DsElems)

end

abbrev Dataset := List (String × DicomValue)

/-- View a top-level dataset as nested-item elements. -/
def dsToElems : Dataset → DsElems
  | [] => .nil
  | (kw, v) :: rest => .cons kw v (dsToElems rest)

def dsSeqOf : List Dataset → DsSeq
  | [] => .nil
  | d :: rest => .cons (dsToElems d) (dsSeqOf rest)

/-- `ds.get(keyword)`. -/
def dsGet (ds : Dataset) (kw : String) : Option DicomValue :=
  (ds.find? (fun e => e.1 == kw)).map Prod.snd

/-- `keyword in ds`. -/
def dsHas (ds : Dataset) (kw : String) : Bool :=
  ds.any (fun e => e.1 == kw)

/-- `setattr(ds, keyword, v)`. -/
def dsSet (ds : Dataset) (kw : String) (v : DicomValue) : Dataset :=
  if ds.any (fun e => e.1 == kw) then
    ds.map (fun e => if e.1 == kw then (kw, v) else e)
  else
    ds ++ [(kw, v)]

/-- Byte-wise (code-point) lexicographic order on strings, matching Python
string comparison as used by `list.sort(key=...)`. -/
def charListLe : List Char → List Char → Bool
  | [], _ => true
  | _ :: _, [] => false
  | a :: as, b :: bs =>
    if a.toNat < b.toNat then true
    else if b.toNat < a.toNat then false
    else charListLe as bs

def strLe (a b : String) : Bool := charListLe a.data b.data

/-- `s.startswith(pre)`. -/
def charListStarts : List Char → List Char → Bool
  | [], _ => true
  | _ :: _, [] => false
  | a :: as, b :: bs => (a == b) && charListStarts as bs

def strStarts (s pre : String) : Bool := charListStarts pre.data s.data

mutual

/-- A rule value from a `dataset_content_rules` mapping: an explicit
scalar, explicit `None`, a nested mapping (one sequence item), or a list
(sequence of items).  Sentinels are `str` values starting with `AUTO_`.
Mutual with its own list forms so recursion is structural. -/
inductive RuleV where
  | str (s : String)
  | int (n : Int)
  | null
  | dict (m : RuleMapI)
  | list (l : RuleSeqI)

/-- A rule mapping (Python dict of tag keyword → rule). -/
inductive RuleMapI where
  | nil
  | cons (kw : String) (r : RuleV) (rest : RuleMapI)

/-- A list of rule values (sequence-of-items rule). -/
inductive RuleSeqI where
  | nil
  | cons (r : RuleV) (rest : RuleSeqI)

end

abbrev RuleMap := List (String × RuleV)

/-- A rule mapping's entries as a list. -/
def RuleMapI.toList : RuleMapI → RuleMap
  | .nil => []
  | .cons kw r rest => (kw, r) :: rest.toList

mutual

/-- Nesting depth of a rule value (used to supply recursion fuel to the
data-dataset builder: the builder recurses once per `dict`/`list` level). -/
def ruleDepth : RuleV → Nat
  | .str _ => 1
  | .int _ => 1
  | .null => 1
  | .dict m => 1 + ruleMapDepth m
  | .list l => 1 + ruleSeqDepth l

def ruleMapDepth : RuleMapI → Nat
  | .nil => 0
  | .cons _ r rest => max (ruleDepth r) (ruleMapDepth rest)

def ruleSeqDepth : RuleSeqI → Nat
  | .nil => 0
  | .cons r rest => max (ruleDepth r) (ruleSeqDepth rest)

end

/-- Stable insertion into a keyword-sorted rule list (an element is placed
before the first strictly-or-equally larger key seen from the left, i.e.
after previously inserted equal keys — the stability Python's `list.sort`
guarantees). -/
def insertByKw (x : String × RuleV) : RuleMap → RuleMap
  | [] => [x]
  | y :: ys => if strLe y.1 x.1 then y :: insertByKw x ys else x :: y :: ys

/-- Stable sort of a rule list by tag keyword (`list.sort(key=lambda
item: item[0])`). -/
def sortRulesByKw (l : RuleMap) : RuleMap :=
  l.foldr insertByKw []

def isStudyUidRule (e : String × RuleV) : Bool :=
  match e.2 with
  | .str s => s == "AUTO_GENERATE_UID_STUDY"
  | _ => false

def isSeriesUidRule (e : String × RuleV) : Bool :=
  match e.2 with
  | .str s => s == "AUTO_GENERATE_UID_SERIES"
  | _ => false

def isInstanceUidRule (e : String × RuleV) : Bool :=
  match e.2 with
  | .str s => s == "AUTO_GENERATE_UID_INSTANCE"
  | _ => false

def isOtherRule (e : String × RuleV) : Bool :=
  !(isStudyUidRule e || isSeriesUidRule e || isInstanceUidRule e)

/-- dataset_builder.py lines 144–175: categorize rules (study-UID rules,
series-UID rules, instance-UID rules, everything else), sort each category
by tag keyword, concatenate. -/
def orderedProcessingList (rules : RuleMap) : RuleMap :=
  sortRulesByKw (rules.filter isStudyUidRule)
    ++ sortRulesByKw (rules.filter isSeriesUidRule)
    ++ sortRulesByKw (rules.filter isInstanceUidRule)
    ++ sortRulesByKw (rules.filter isOtherRule)

/-! Generated identifiers.  `pydicom.uid.generate_uid` and `random.choice`
are modelled by an explicit generator counter threaded through the builder;
each draw yields a fresh deterministic value and advances the counter. -/

def pydicom_generate_uid (pre : String) (g : Nat) : String × Nat :=
  (pre ++ toString g, g + 1)

/-- pydicom's default `generate_uid` root. -/
def DEFAULT_UID_ROOT : String := "1.2.826.0.1.3680043.8.498."

def SAMPLE_PATIENT_NAMES : List String :=
  ["DOE^JOHN", "ROE^JANE", "SMITH^ROBERT", "WILLIAMS^MARY", "BROWN^JAMES",
   "JONES^PATRICIA", "GARCIA^LINDA", "MILLER^DAVID", "DAVIS^ELIZABETH"]

/-- `random.choice(SAMPLE_PATIENT_NAMES)` modelled by the counter. -/
def choose_sample_patient_name (g : Nat) : String × Nat :=
  (SAMPLE_PATIENT_NAMES.getD (g % SAMPLE_PATIENT_NAMES.length) "", g + 1)

structure SopClassDefinition where
  sop_class_uid : String
  role : String
  transfer_syntaxes : List String
  deriving Repr, DecidableEq

/-- `AssetDicomProperties` (models.py): all fields optional.
`supported_sop_classes` is modelled as a plain list (negotiation iterates
it directly; a `None` there would crash the source). -/
structure AssetDicomProperties where
  ae_title : Option String
  implementation_class_uid : Option String
  implementation_version_name : Option String
  manufacturer : Option String
  model_name : Option String
  software_versions : Option (List String)
  device_serial_number : Option String
  supported_sop_classes : List SopClassDefinition
  deriving Repr, DecidableEq

structure CommandSetItem where
  MessageID : Int
  Priority : Option Int
  AffectedSOPClassUID : Option String
  AffectedSOPInstanceUID : Option String
  extra_fields : List (String × DicomValue)

structure DimseOperation where
  operation_name : String
  message_type : String
  presentation_context_id : Nat
  command_set : CommandSetItem
  dataset_content_rules : Option RuleMapI

/-- `_build_command_dataset` (dataset_builder.py lines 90–124): extra
fields first, then the well-known fields; `AffectedSOPInstanceUID =
"AUTO_GENERATE_UID_INSTANCE"` uses the supplied pre-generated UID or draws
a fresh one. -/
def build_command_dataset (cs : CommandSetItem) (autoUid : Option String)
    (g : Nat) : Dataset × Nat :=
  let ds := cs.extra_fields.foldl (fun d e => dsSet d e.1 e.2) []
  let ds := dsSet ds "MessageID" (.int cs.MessageID)
  let ds := match cs.Priority with
    | some p => dsSet ds "Priority" (.int p)
    | none => ds
  let ds := match cs.AffectedSOPClassUID with
    | some u => dsSet ds "AffectedSOPClassUID" (.str u)
    | none => ds
  match cs.AffectedSOPInstanceUID with
  | some u =>
    if u == "AUTO_GENERATE_UID_INSTANCE" then
      match autoUid with
      | some a => (dsSet ds "AffectedSOPInstanceUID" (.str a), g)
      | none =>
        let (nu, g') := pydicom_generate_uid DEFAULT_UID_ROOT g
        (dsSet ds "AffectedSOPInstanceUID" (.str nu), g')
    else (dsSet ds "AffectedSOPInstanceUID" (.str u), g)
  | none => (ds, g)

/-- Resolution of an `AUTO_`-sentinel rule string (dataset_builder.py
lines 186–231): `none` models a Python `None` resolved value; an unknown
`AUTO_` token resolves to itself as a literal string. -/
def resolveAutoRule (kw s : String) (cmdDs : Dataset)
    (scu scp : AssetDicomProperties) (today : String) (g : Nat) :
    Option DicomValue × Nat :=
  if s == "AUTO_FROM_COMMAND_AFFECTED_SOP_CLASS_UID" then
    (dsGet cmdDs "AffectedSOPClassUID", g)
  else if s == "AUTO_FROM_COMMAND_AFFECTED_SOP_INSTANCE_UID" then
    (dsGet cmdDs "AffectedSOPInstanceUID", g)
  else if s == "AUTO_GENERATE_UID_INSTANCE" then
    if kw == "SOPInstanceUID" && dsHas cmdDs "AffectedSOPInstanceUID" then
      (dsGet cmdDs "AffectedSOPInstanceUID", g)
    else
      let (u, g') := pydicom_generate_uid DEFAULT_UID_ROOT g
      (some (.str u), g')
  else if s == "AUTO_GENERATE_UID_STUDY" then
    let (u, g') := pydicom_generate_uid "1.2.826.0.1.3680043.2.1143.1.1.1." g
    (some (.str u), g')
  else if s == "AUTO_GENERATE_UID_SERIES" then
    let (u, g') := pydicom_generate_uid "1.2.826.0.1.3680043.2.1143.1.1.2." g
    (some (.str u), g')
  else if s == "AUTO_GENERATE_UID" then
    let (u, g') := pydicom_generate_uid DEFAULT_UID_ROOT g
    (some (.str u), g')
  else if s == "AUTO_GENERATE_SAMPLE_PATIENT_NAME" then
    let (n, g') := choose_sample_patient_name g
    (some (.str n), g')
  else if s == "AUTO_GENERATE_SAMPLE_DATE_TODAY" then
    (some (.str today), g)
  else if s == "AUTO_FROM_ASSET_SCU_AE_TITLE" then (scu.ae_title.map .str, g)
  else if s == "AUTO_FROM_ASSET_SCP_AE_TITLE" then (scp.ae_title.map .str, g)
  else if s == "AUTO_FROM_ASSET_SCU_MANUFACTURER" then (scu.manufacturer.map .str, g)
  else if s == "AUTO_FROM_ASSET_SCP_MANUFACTURER" then (scp.manufacturer.map .str, g)
  else if s == "AUTO_FROM_ASSET_SCU_MODEL_NAME" then (scu.model_name.map .str, g)
  else if s == "AUTO_FROM_ASSET_SCP_MODEL_NAME" then (scp.model_name.map .str, g)
  else if s == "AUTO_FROM_ASSET_SCU_SOFTWARE_VERSIONS" then
    (scu.software_versions.map .strs, g)
  else if s == "AUTO_FROM_ASSET_SCP_SOFTWARE_VERSIONS" then
    (scp.software_versions.map .strs, g)
  else if s == "AUTO_FROM_ASSET_SCU_DEVICE_SERIAL_NUMBER" then
    (scu.device_serial_number.map .str, g)
  else if s == "AUTO_FROM_ASSET_SCP_DEVICE_SERIAL_NUMBER" then
    (scp.device_serial_number.map .str, g)
  else
    (some (.str s), g)

/-- Is this rule a string starting with the given token (the
`isinstance(rule, str) and rule.startswith(...)` tests)? -/
def ruleStrStarts (r : RuleV) (pre : String) : Bool :=
  match r with
  | .str s => strStarts s pre
  | _ => false

def ruleIsStr (r : RuleV) (s : String) : Bool :=
  match r with
  | .str t => t == s
  | _ => false

/-- The output keyword of one rule (dataset_builder.py lines 287–292): the
`ModelName` tag keyword is remapped to `ManufacturerModelName` exactly when
the rule is one of the two asset model-name sentinels. -/
def ruleActualKw (kw : String) (r : RuleV) : String :=
  if kw == "ModelName"
      && (ruleIsStr r "AUTO_FROM_ASSET_SCU_MODEL_NAME"
        || ruleIsStr r "AUTO_FROM_ASSET_SCP_MODEL_NAME") then
    "ManufacturerModelName"
  else kw

def RuleSeqI.toList : RuleSeqI → List RuleV
  | .nil => []
  | .cons r rest => r :: rest.toList

/-- Resolution of one processing-list element that does not recurse into
nested rule structures (dataset_builder.py lines 178–231, 277–280): the
`AUTO_`-string, explicit-string, explicit-number and explicit-`None`
branches.  `dict`/`list` rules are handled by `buildDataFuel` itself. -/
def resolveFlatRule (kw : String) (r : RuleV) (cmdDs : Dataset)
    (scu scp : AssetDicomProperties) (today : String) (g : Nat) :
    Option DicomValue × Nat :=
  match r with
  | .str s =>
    if strStarts s "AUTO_" then resolveAutoRule kw s cmdDs scu scp today g
    else (some (.str s), g)
  | .int n => (some (.int n), g)
  | .null => (none, g)
  | .dict _ => (none, g)
  | .list _ => (none, g)

/-- Writing one resolved rule to the dataset under construction
(dataset_builder.py lines 286–308): remap the output keyword, write the
value when it resolved non-`None`, write an explicit `None` as a null
element, and omit `None`s that came from `AUTO_` rules. -/
def applyResolved (ds : Dataset) (he : Bool) (kw : String) (r : RuleV)
    (resolved : Option DicomValue) : Dataset × Bool :=
  let actualKw := ruleActualKw kw r
  match resolved with
  | some v => (dsSet ds actualKw v, true)
  | none =>
    if !(ruleStrStarts r "AUTO_FROM_ASSET_") then
      if !(ruleStrStarts r "AUTO_") then (dsSet ds actualKw .null, true)
      else (ds, he)
    else (ds, he)

/-- Resolution of one processing-list element, parameterized by the
recursive nested-dataset builder (dataset_builder.py lines 178–280):
`dict` rules build one nested dataset, `list` rules build one per dict
member (non-dict members are passed over), everything else resolves
flat. -/
def stepResolve (recurse : RuleMapI → Nat → Option Dataset × Nat)
    (cmdDs : Dataset) (scu scp : AssetDicomProperties) (today : String)
    (e : String × RuleV) (g0 : Nat) : Option DicomValue × Nat :=
  match e.2 with
  | .dict m =>
    let (nested, g2) := recurse m g0
    (some (DicomValue.seq (dsSeqOf
      (match nested with | some nds => [nds] | none => []))), g2)
  | .list items =>
    let (seqItems, g2) := items.toList.foldl
      (fun (acc2 : List Dataset × Nat) item =>
        match item with
        | RuleV.dict m =>
          let (nested, g3) := recurse m acc2.2
          (match nested with
            | some nds => acc2.1 ++ [nds]
            | none => acc2.1, g3)
        | _ => acc2) ([], g0)
    (some (DicomValue.seq (dsSeqOf seqItems)), g2)
  | r => resolveFlatRule e.1 r cmdDs scu scp today g0

/-- One iteration of the per-rule processing loop: resolve, then write to
the dataset under construction. -/
def buildStepWith (recurse : RuleMapI → Nat → Option Dataset × Nat)
    (cmdDs : Dataset) (scu scp : AssetDicomProperties) (today : String)
    (acc : Dataset × Bool × Nat) (e : String × RuleV) : Dataset × Bool × Nat :=
  let step := stepResolve recurse cmdDs scu scp today e acc.2.2
  let ap := applyResolved acc.1 acc.2.1 e.1 e.2 step.1
  (ap.1, ap.2, step.2)

/-- `_build_data_dataset` (dataset_builder.py lines 128–310) with an
explicit nesting-depth fuel: categorize and sort the rules, then process
them in order, threading (dataset, has_elements, generator counter).  The
fuel decreases exactly once per nesting level, so any fuel exceeding the
rule structure's depth (see `build_data_dataset`) gives the source's
behavior. -/
def buildDataFuel :
    Nat → RuleMapI → Dataset → AssetDicomProperties → AssetDicomProperties →
    String → Nat → Option Dataset × Nat
  | 0, _, _, _, _, _, g => (none, g)
  | fuel + 1, rules, cmdDs, scu, scp, today, g =>
    match rules.toList with
    | [] => (none, g)
    | l =>
      let r := (orderedProcessingList l).foldl
        (buildStepWith (fun m g0 => buildDataFuel fuel m cmdDs scu scp today g0)
          cmdDs scu scp today) ([], false, g)
      (if r.2.1 then some r.1 else none, r.2.2)

/-- `_build_data_dataset` (dataset_builder.py lines 128–310):
`ruleMapDepth rules + 1` exceeds the nesting depth of the rule structure,
so the fuel never runs out. -/
def build_data_dataset (rules : RuleMapI) (cmdDs : Dataset)
    (scu scp : AssetDicomProperties) (today : String) (g : Nat) :
    Option Dataset × Nat :=
  buildDataFuel (ruleMapDepth rules + 1) rules cmdDs scu scp today g

/-! ## Dataset byte codec

Modelled from the spec: the pydicom collaborator that writes a dataset to
bytes (`pydicom.filewriter.write_dataset`) and reads bytes back as a
dataset (`pydicom.dcmread(..., force=True)`).  The model is an injective
tagged encoding whose parser accepts exactly its own output (in
particular, A-ASSOCIATE PDU bodies — which are not DICOM datasets — fail
to parse, as they do under pydicom).  Transfer-syntax VR/endianness
selection is not distinguished by the model.  String and list lengths of
the modelled data are below 256 so every emitted value is a byte. -/

mutual

def encodeDicomValue : DicomValue → List Nat
  | .str s => 0 :: (strBytes s).length :: strBytes s
  | .int n => 1 :: (if n < 0 then 1 else 0) :: beU32 n.natAbs
  | .null => [2]
  | .strs l =>
    3 :: l.length :: l.foldr (fun s acc => (strBytes s).length :: (strBytes s ++ acc)) []
  | .seq items => 4 :: encodeDsSeq items

def encodeDsSeq : DsSeq → List Nat
  | .nil => [0]
  | .cons d rest => 1 :: (encodeDsElems d ++ encodeDsSeq rest)

def encodeDsElems : DsElems → List Nat
  | .nil => [0]
  | .cons kw v rest =>
    1 :: (strBytes kw).length :: (strBytes kw ++ (encodeDicomValue v ++ encodeDsElems rest))

end

/-- `pydicom.filewriter.write_dataset` (collaborator model): a tagged
dataset marker followed by the element list. -/
def encode_dataset (ds : Dataset) : List Nat :=
  0xD5 :: 0xC3 :: encodeDsElems (dsToElems ds)

def elemsToDs : DsElems → Dataset
  | .nil => []
  | .cons kw v rest => (kw, v) :: elemsToDs rest

mutual

def parseValue : Nat → List Nat → Option (DicomValue × List Nat)
  | 0, _ => none
  | fuel + 1, bs =>
    match bs with
    | 0 :: len :: rest =>
      if len ≤ rest.length then some (.str (bytesToStr (rest.take len)), rest.drop len)
      else none
    | 1 :: sgn :: b0 :: b1 :: b2 :: b3 :: rest =>
      some (.int (if sgn == 1 then -(beU32dec b0 b1 b2 b3 : Int)
        else (beU32dec b0 b1 b2 b3 : Int)), rest)
    | 2 :: rest => some (.null, rest)
    | 3 :: cnt :: rest =>
      (parseStrs fuel cnt rest).map (fun p => (.strs p.1, p.2))
    | 4 :: rest =>
      (parseSeq fuel rest).map (fun p => (.seq p.1, p.2))
    | _ => none

def parseStrs : Nat → Nat → List Nat → Option (List String × List Nat)
  | 0, _, _ => none
  | _ + 1, 0, rest => some ([], rest)
  | fuel + 1, cnt + 1, len :: rest =>
    if len ≤ rest.length then
      (parseStrs fuel cnt (rest.drop len)).map
        (fun p => (bytesToStr (rest.take len) :: p.1, p.2))
    else none
  | _ + 1, _ + 1, [] => none

def parseSeq : Nat → List Nat → Option (DsSeq × List Nat)
  | 0, _ => none
  | _ + 1, 0 :: rest => some (.nil, rest)
  | fuel + 1, 1 :: rest =>
    match parseElems fuel rest with
    | some (d, r) =>
      (parseSeq fuel r).map (fun p => (.cons d p.1, p.2))
    | none => none
  | _ + 1, _ => none

def parseElems : Nat → List Nat → Option (DsElems × List Nat)
  | 0, _ => none
  | _ + 1, 0 :: rest => some (.nil, rest)
  | fuel + 1, 1 :: klen :: rest =>
    if klen ≤ rest.length then
      match parseValue fuel (rest.drop klen) with
      | some (v, r) =>
        (parseElems fuel r).map
          (fun p => (.cons (bytesToStr (rest.take klen)) v p.1, p.2))
      | none => none
    else none
  | _ + 1, _ => none

end

/-- `pydicom.dcmread(io.BytesIO(bytes), force=True)` (collaborator model):
succeeds exactly on complete encoded datasets. -/
def parse_dataset (bs : List Nat) : Option Dataset :=
  match bs with
  | 0xD5 :: 0xC3 :: rest =>
    match parseElems (rest.length + 1) rest with
    | some (es, []) => some (elemsToDs es)
    | _ => none
  | _ => none

/-! ## P-DATA-TF construction (utils.py `create_p_data_tf_pdu`) -/

/-- `create_p_data_tf_pdu` (utils.py lines 267–325): encode the DIMSE
dataset, prepend the message-control-header byte (0x03 command /
0x02 data, both with the last-fragment bit set), wrap in a single PDV
item (4-byte big-endian length covering context id + MCH + data, then the
context id), and frame as a P-DATA-TF PDU (type 0x04, reserved, 4-byte
big-endian length). -/
def create_p_data_tf_pdu (dimseDataset : Dataset) (presentationContextId : Nat)
    (isCommand : Bool) : List Nat :=
  let encodedDatasetBytes := encode_dataset dimseDataset
  let messageControlHeaderByte : Nat := if isCommand then 0x03 else 0x02
  let pdvDataWithHeader := messageControlHeaderByte :: encodedDatasetBytes
  let pdvItem := beU32 (pdvDataWithHeader.length + 1)
    ++ presentationContextId :: pdvDataWithHeader
  [0x04, 0] ++ beU32 pdvItem.length ++ pdvItem

/-- dataset_builder.py lines 41–44: the command's AffectedSOPInstanceUID
to use — the shared pre-generated UID when supplied, else a fresh UID when
the command set carries the generation sentinel. -/
def resolveSharedCmdUid (cs : CommandSetItem) (shared : Option String)
    (g : Nat) : Option String × Nat :=
  match cs.AffectedSOPInstanceUID, shared with
  | some u, none =>
    if u == "AUTO_GENERATE_UID_INSTANCE" then
      let (nu, g') := pydicom_generate_uid DEFAULT_UID_ROOT g
      (some nu, g')
    else (none, g)
  | _, sh => (sh, g)

/-- `generate_p_data_tf_pdus_for_dimse_operation` (dataset_builder.py
lines 19–86): one command PDU, then a data PDU only when
`dataset_content_rules` is truthy and resolves to a non-empty dataset.
The accepted transfer syntax selects VR/endianness in the source, which
the codec model does not distinguish. -/
def generate_p_data_tf_pdus_for_dimse_operation (operation : DimseOperation)
    (scuDicomProperties scpDicomProperties : AssetDicomProperties)
    (acceptedTransferSyntaxUid : String)
    (sharedAffectedSopInstanceUid : Option String)
    (today : String) (g : Nat) : List (List Nat) × Nat :=
  let _ := acceptedTransferSyntaxUid
  let rsu := resolveSharedCmdUid operation.command_set sharedAffectedSopInstanceUid g
  let bc := build_command_dataset operation.command_set rsu.1 rsu.2
  let commandPduBytes :=
    create_p_data_tf_pdu bc.1 operation.presentation_context_id true
  match operation.dataset_content_rules with
  | some rules =>
    if rules.toList.isEmpty then ([commandPduBytes], bc.2)
    else
      let bd := build_data_dataset rules bc.1
        scuDicomProperties scpDicomProperties today bc.2
      match bd.1 with
      | some dataDs =>
        if 0 < dataDs.length then
          ([commandPduBytes,
            create_p_data_tf_pdu dataDs operation.presentation_context_id false], bd.2)
        else ([commandPduBytes], bd.2)
      | none => ([commandPduBytes], bd.2)
  | none => ([commandPduBytes], bc.2)

/-! ## Lookup lemmas for the dataset builder -/

theorem find?_setMap_self (ds : Dataset) (kw : String) (v : DicomValue)
    (hany : ds.any (fun e => e.1 == kw) = true) :
    (ds.map (fun e => if e.1 == kw then (kw, v) else e)).find?
      (fun e => e.1 == kw) = some (kw, v) := by
  induction ds with
  | nil => simp at hany
  | cons a t ih =>
    rw [List.map_cons]
    by_cases h : a.1 = kw
    · rw [if_pos (by simp [h]), List.find?_cons_of_pos _ (by simp)]
    · rw [if_neg (by simp [h]), List.find?_cons_of_neg _ (by simp [h])]
      exact ih (by simpa [List.any_cons, h] using hany)

theorem find?_setMap_ne (ds : Dataset) (kw kw' : String) (v : DicomValue)
    (h : kw' ≠ kw) :
    (ds.map (fun e => if e.1 == kw then (kw, v) else e)).find?
      (fun e => e.1 == kw') = ds.find? (fun e => e.1 == kw') := by
  induction ds with
  | nil => simp
  | cons a t ih =>
    rw [List.map_cons]
    by_cases ha : a.1 = kw
    · have hh : ¬ (kw = kw') := fun hh => h hh.symm
      rw [if_pos (by simp [ha]), List.find?_cons_of_neg _ (by simp [hh]),
        List.find?_cons_of_neg _ (by simp [ha, hh]), ih]
    · by_cases ha' : a.1 = kw'
      · rw [if_neg (by simp [ha]), List.find?_cons_of_pos _ (by simp [ha']),
          List.find?_cons_of_pos _ (by simp [ha'])]
      · rw [if_neg (by simp [ha]), List.find?_cons_of_neg _ (by simp [ha']),
          List.find?_cons_of_neg _ (by simp [ha']), ih]

theorem dsGet_dsSet_self (ds : Dataset) (kw : String) (v : DicomValue) :
    dsGet (dsSet ds kw v) kw = some v := by
  unfold dsSet dsGet
  rcases hany : ds.any (fun e => e.1 == kw) with _ | _
  · rw [if_neg (by simp [hany])]
    rw [List.find?_append]
    have hnone : ds.find? (fun e => e.1 == kw) = none := by
      rw [List.find?_eq_none]
      intro e he
      by_contra hc
      have : ds.any (fun e => e.1 == kw) = true :=
        List.any_eq_true.mpr ⟨e, he, by simpa using hc⟩
      simp [hany] at this
    rw [hnone, Option.none_or, List.find?_cons_of_pos _ (by simp)]
    rfl
  · rw [if_pos (by simp [hany])]
    rw [find?_setMap_self ds kw v hany]
    rfl

theorem dsGet_dsSet_ne (ds : Dataset) (kw kw' : String) (v : DicomValue)
    (h : kw' ≠ kw) : dsGet (dsSet ds kw v) kw' = dsGet ds kw' := by
  unfold dsSet dsGet
  rcases hany : ds.any (fun e => e.1 == kw) with _ | _
  · rw [if_neg (by simp [hany])]
    rw [List.find?_append]
    rcases hf : ds.find? (fun e => e.1 == kw') with _ | e
    · rw [hf, Option.none_or,
        List.find?_cons_of_neg _ (by simp; exact fun hh => h hh.symm)]
      simp [List.find?, hf]
    · rw [hf]
      rfl
  · rw [if_pos (by simp [hany])]
    rw [find?_setMap_ne ds kw kw' v h]

theorem dsGet_some_length (ds : Dataset) (kw : String) (v : DicomValue)
    (h : dsGet ds kw = some v) : 0 < ds.length := by
  cases ds with
  | nil => simp [dsGet] at h
  | cons a t => simp

/-- `applyResolved` writes only at the rule's output keyword. -/
theorem applyResolved_get_ne (ds : Dataset) (he : Bool) (kw : String)
    (r : RuleV) (resolved : Option DicomValue) (kw' : String)
    (h : ruleActualKw kw r ≠ kw') :
    dsGet (applyResolved ds he kw r resolved).1 kw' = dsGet ds kw' := by
  unfold applyResolved
  cases resolved with
  | some v => exact dsGet_dsSet_ne ds (ruleActualKw kw r) kw' v (Ne.symm h)
  | none =>
    by_cases h1 : ruleStrStarts r "AUTO_FROM_ASSET_"
    · simp [h1]
    · by_cases h2 : ruleStrStarts r "AUTO_"
      · simp [h1, h2]
      · simp only [h1, h2, Bool.not_false, Bool.not_true, if_true, if_false]
        exact dsGet_dsSet_ne ds (ruleActualKw kw r) kw' .null (Ne.symm h)

theorem applyResolved_get_self (ds : Dataset) (he : Bool) (kw : String)
    (r : RuleV) (v : DicomValue) :
    dsGet (applyResolved ds he kw r (some v)).1 (ruleActualKw kw r) = some v := by
  unfold applyResolved
  exact dsGet_dsSet_self ds (ruleActualKw kw r) v

theorem applyResolved_he_mono (ds : Dataset) (kw : String)
    (r : RuleV) (resolved : Option DicomValue) :
    (applyResolved ds true kw r resolved).2 = true := by
  unfold applyResolved
  cases resolved with
  | some v => rfl
  | none =>
    by_cases h1 : ruleStrStarts r "AUTO_FROM_ASSET_"
    · simp [h1]
    · by_cases h2 : ruleStrStarts r "AUTO_"
      · simp [h1, h2]
      · simp [h1, h2]

theorem applyResolved_he_some (ds : Dataset) (he : Bool) (kw : String)
    (r : RuleV) (v : DicomValue) :
    (applyResolved ds he kw r (some v)).2 = true := rfl

/-- Processing rules none of which writes keyword `kw` leaves the lookup of
`kw` unchanged. -/
theorem foldl_buildStep_frame (R : RuleMapI → Nat → Option Dataset × Nat)
    (cmdDs : Dataset) (scu scp : AssetDicomProperties) (today : String)
    (kw : String) :
    ∀ (l : RuleMap) (acc : Dataset × Bool × Nat),
      (∀ e ∈ l, ruleActualKw e.1 e.2 ≠ kw) →
      dsGet (l.foldl (buildStepWith R cmdDs scu scp today) acc).1 kw
        = dsGet acc.1 kw := by
  intro l
  induction l with
  | nil => intro acc _; rfl
  | cons e t ih =>
    intro acc hall
    rw [List.foldl_cons, ih _ (fun x hx => hall x (List.mem_cons_of_mem e hx))]
    exact applyResolved_get_ne acc.1 acc.2.1 e.1 e.2 _ kw
      (hall e (List.mem_cons_self e t))

/-- If every rule in the list that writes keyword `kw` resolves — at every
generator state — to the same value `v`, and either some such rule exists
or the accumulator already maps `kw` to `v`, then after processing the
dataset maps `kw` to `v`. -/
theorem foldl_buildStep_lookup (R : RuleMapI → Nat → Option Dataset × Nat)
    (cmdDs : Dataset) (scu scp : AssetDicomProperties) (today : String)
    (kw : String) (v : DicomValue) :
    ∀ (l : RuleMap) (acc : Dataset × Bool × Nat),
      (∀ e ∈ l, ruleActualKw e.1 e.2 = kw →
        ∀ g0, (stepResolve R cmdDs scu scp today e g0).1 = some v) →
      ((∃ e ∈ l, ruleActualKw e.1 e.2 = kw) ∨ dsGet acc.1 kw = some v) →
      dsGet (l.foldl (buildStepWith R cmdDs scu scp today) acc).1 kw
        = some v := by
  intro l
  induction l with
  | nil =>
    intro acc _ hmem
    rcases hmem with ⟨e, he, _⟩ | h
    · exact absurd he (List.not_mem_nil e)
    · exact h
  | cons e t ih =>
    intro acc hall hmem
    rw [List.foldl_cons]
    by_cases hw : ruleActualKw e.1 e.2 = kw
    · refine ih _ (fun x hx => hall x (List.mem_cons_of_mem e hx)) (Or.inr ?_)
      show dsGet (applyResolved acc.1 acc.2.1 e.1 e.2
          (stepResolve R cmdDs scu scp today e acc.2.2).1).1 kw = some v
      have hres := hall e (List.mem_cons_self e t) hw acc.2.2
      rw [hres, ← hw]
      exact applyResolved_get_self acc.1 acc.2.1 e.1 e.2 v
    · refine ih _ (fun x hx => hall x (List.mem_cons_of_mem e hx)) ?_
      rcases hmem with ⟨x, hx, hxw⟩ | hacc
      · rcases List.mem_cons.mp hx with rfl | hx'
        · exact absurd hxw hw
        · exact Or.inl ⟨x, hx', hxw⟩
      · refine Or.inr ?_
        show dsGet (applyResolved acc.1 acc.2.1 e.1 e.2
            (stepResolve R cmdDs scu scp today e acc.2.2).1).1 kw = some v
        rw [applyResolved_get_ne acc.1 acc.2.1 e.1 e.2 _ kw hw]
        exact hacc

theorem foldl_buildStep_he_mono (R : RuleMapI → Nat → Option Dataset × Nat)
    (cmdDs : Dataset) (scu scp : AssetDicomProperties) (today : String) :
    ∀ (l : RuleMap) (acc : Dataset × Bool × Nat), acc.2.1 = true →
      (l.foldl (buildStepWith R cmdDs scu scp today) acc).2.1 = true := by
  intro l
  induction l with
  | nil => intro acc h; exact h
  | cons e t ih =>
    intro acc h
    rw [List.foldl_cons]
    refine ih _ ?_
    show (applyResolved acc.1 acc.2.1 e.1 e.2
        (stepResolve R cmdDs scu scp today e acc.2.2).1).2 = true
    rw [h]
    exact applyResolved_he_mono acc.1 e.1 e.2 _

/-- A rule resolving non-`None` sets the `has_elements` flag. -/
theorem foldl_buildStep_he_write (R : RuleMapI → Nat → Option Dataset × Nat)
    (cmdDs : Dataset) (scu scp : AssetDicomProperties) (today : String) :
    ∀ (l : RuleMap) (acc : Dataset × Bool × Nat),
      (∃ e ∈ l, ∀ g0, ∃ v, (stepResolve R cmdDs scu scp today e g0).1 = some v) →
      (l.foldl (buildStepWith R cmdDs scu scp today) acc).2.1 = true := by
  intro l
  induction l with
  | nil =>
    intro acc ⟨e, he, _⟩
    exact absurd he (List.not_mem_nil e)
  | cons e t ih =>
    intro acc hmem
    rw [List.foldl_cons]
    rcases hmem with ⟨x, hx, hres⟩
    rcases List.mem_cons.mp hx with rfl | hx'
    · refine foldl_buildStep_he_mono R cmdDs scu scp today t _ ?_
      show (applyResolved acc.1 acc.2.1 x.1 x.2
          (stepResolve R cmdDs scu scp today x acc.2.2).1).2 = true
      obtain ⟨v, hv⟩ := hres acc.2.2
      rw [hv]
      exact applyResolved_he_some acc.1 acc.2.1 x.1 x.2 v
    · exact ih _ ⟨x, hx', hres⟩

theorem mem_insertByKw (y : String × RuleV) :
    ∀ (l : RuleMap) (x : String × RuleV), x ∈ insertByKw y l ↔ x = y ∨ x ∈ l := by
  intro l
  induction l with
  | nil => intro x; simp [insertByKw]
  | cons a t ih =>
    intro x
    unfold insertByKw
    by_cases h : strLe a.1 y.1 = true
    · rw [if_pos h]
      simp only [List.mem_cons, ih]
      tauto
    · rw [if_neg h]
      simp only [List.mem_cons]

theorem mem_sortRulesByKw (l : RuleMap) (x : String × RuleV) :
    x ∈ sortRulesByKw l ↔ x ∈ l := by
  unfold sortRulesByKw
  induction l with
  | nil => simp
  | cons a t ih =>
    rw [List.foldr_cons, mem_insertByKw]
    simp [ih]

theorem mem_orderedProcessingList (l : RuleMap) (x : String × RuleV) :
    x ∈ orderedProcessingList l ↔ x ∈ l := by
  unfold orderedProcessingList
  simp only [List.mem_append, mem_sortRulesByKw, List.mem_filter]
  constructor
  · rintro (((⟨h, _⟩ | ⟨h, _⟩) | ⟨h, _⟩) | ⟨h, _⟩) <;> exact h
  · intro hx
    by_cases h1 : isStudyUidRule x
    · exact Or.inl (Or.inl (Or.inl ⟨hx, h1⟩))
    · by_cases h2 : isSeriesUidRule x
      · exact Or.inl (Or.inl (Or.inr ⟨hx, h2⟩))
      · by_cases h3 : isInstanceUidRule x
        · exact Or.inl (Or.inr ⟨hx, h3⟩)
        · refine Or.inr ⟨hx, ?_⟩
          simp [isOtherRule, h1, h2, h3]

/-- In a list whose keys are `Nodup`, a key determines its value. -/
theorem key_nodup_unique {β : Type} :
    ∀ (l : List (String × β)), (l.map Prod.fst).Nodup →
      ∀ (a : String) (b₁ b₂ : β), (a, b₁) ∈ l → (a, b₂) ∈ l → b₁ = b₂ := by
  intro l
  induction l with
  | nil => intro _ a b₁ b₂ h; exact absurd h (List.not_mem_nil _)
  | cons e t ih =>
    intro hnd a b₁ b₂ h1 h2
    rw [List.map_cons, List.nodup_cons] at hnd
    rcases List.mem_cons.mp h1 with rfl | h1'
    · rcases List.mem_cons.mp h2 with h2e | h2'
      · exact (congrArg Prod.snd h2e.symm)
      · exact absurd (List.mem_map.mpr ⟨(a, b₂), h2', rfl⟩) hnd.1
    · rcases List.mem_cons.mp h2 with rfl | h2'
      · exact absurd (List.mem_map.mpr ⟨(a, b₁), h1', rfl⟩) hnd.1
      · exact ih hnd.2 a b₁ b₂ h1' h2'

/-- A command set carrying the instance-UID generation sentinel always
yields a command dataset with a concrete AffectedSOPInstanceUID. -/
theorem build_command_dataset_affected (cs : CommandSetItem)
    (autoUid : Option String) (g : Nat)
    (h : cs.AffectedSOPInstanceUID = some "AUTO_GENERATE_UID_INSTANCE") :
    ∃ u, dsGet (build_command_dataset cs autoUid g).1 "AffectedSOPInstanceUID"
      = some (.str u) := by
  unfold build_command_dataset
  rw [h]
  simp only []
  rw [if_pos (by decide)]
  cases autoUid with
  | some a => exact ⟨a, dsGet_dsSet_self _ _ _⟩
  | none =>
    refine ⟨(pydicom_generate_uid DEFAULT_UID_ROOT g).1, ?_⟩
    simp only [pydicom_generate_uid]
    exact dsGet_dsSet_self _ _ _

/-- C5: for every C-STORE DimseOperation whose command set has
`AffectedSOPInstanceUID = "AUTO_GENERATE_UID_INSTANCE"` and whose dataset
content rules map `SOPInstanceUID` to
`"AUTO_FROM_COMMAND_AFFECTED_SOP_INSTANCE_UID"`, the generated command
dataset's AffectedSOPInstanceUID and the generated data dataset's
SOPInstanceUID are identical (and the operation's generated PDU list is
exactly the command PDU followed by the data PDU carrying those
datasets). -/
theorem C5_uid_correlation (op : DimseOperation)
    (scu scp : AssetDicomProperties) (ts : String) (shared : Option String)
    (today : String) (g : Nat) (rules : RuleMapI)
    (_hstore : op.message_type = "C-STORE-RQ")
    (hcmd : op.command_set.AffectedSOPInstanceUID
      = some "AUTO_GENERATE_UID_INSTANCE")
    (hrules : op.dataset_content_rules = some rules)
    (hmem : ("SOPInstanceUID",
        RuleV.str "AUTO_FROM_COMMAND_AFFECTED_SOP_INSTANCE_UID") ∈ rules.toList)
    (hnodup : (rules.toList.map Prod.fst).Nodup) :
    ∃ dataDs gOut,
      build_data_dataset rules
        (build_command_dataset op.command_set
          (resolveSharedCmdUid op.command_set shared g).1
          (resolveSharedCmdUid op.command_set shared g).2).1
        scu scp today
        (build_command_dataset op.command_set
          (resolveSharedCmdUid op.command_set shared g).1
          (resolveSharedCmdUid op.command_set shared g).2).2
        = (some dataDs, gOut)
      ∧ dsGet dataDs "SOPInstanceUID"
          = dsGet (build_command_dataset op.command_set
              (resolveSharedCmdUid op.command_set shared g).1
              (resolveSharedCmdUid op.command_set shared g).2).1
            "AffectedSOPInstanceUID"
      ∧ (∃ u, dsGet (build_command_dataset op.command_set
              (resolveSharedCmdUid op.command_set shared g).1
              (resolveSharedCmdUid op.command_set shared g).2).1
            "AffectedSOPInstanceUID" = some (DicomValue.str u))
      ∧ (generate_p_data_tf_pdus_for_dimse_operation op scu scp ts shared
          today g).1
        = [create_p_data_tf_pdu
            (build_command_dataset op.command_set
              (resolveSharedCmdUid op.command_set shared g).1
              (resolveSharedCmdUid op.command_set shared g).2).1
            op.presentation_context_id true,
          create_p_data_tf_pdu dataDs op.presentation_context_id false] := by
  set rsu := resolveSharedCmdUid op.command_set shared g with hrsu
  set bc := build_command_dataset op.command_set rsu.1 rsu.2 with hbc
  obtain ⟨u, hu⟩ := build_command_dataset_affected op.command_set rsu.1 rsu.2 hcmd
  rw [← hbc] at hu
  -- the data dataset
  have hne : rules.toList ≠ [] := by
    intro hnil
    rw [hnil] at hmem
    exact absurd hmem (List.not_mem_nil _)
  -- characterize the element resolution for every writer of SOPInstanceUID
  have hall : ∀ e ∈ orderedProcessingList rules.toList,
      ruleActualKw e.1 e.2 = "SOPInstanceUID" →
      ∀ g0, (stepResolve
          (fun m g0 => buildDataFuel (ruleMapDepth rules) m bc.1 scu scp today g0)
          bc.1 scu scp today e g0).1 = some (DicomValue.str u) := by
    intro e he hkw g0
    have heL : e ∈ rules.toList := (mem_orderedProcessingList _ _).mp he
    have hkey : e.1 = "SOPInstanceUID" := by
      unfold ruleActualKw at hkw
      rcases hbb : (e.1 == "ModelName")
          && (ruleIsStr e.2 "AUTO_FROM_ASSET_SCU_MODEL_NAME"
            || ruleIsStr e.2 "AUTO_FROM_ASSET_SCP_MODEL_NAME") with _ | _
      · rw [hbb, if_neg (by simp)] at hkw
        exact hkw
      · rw [hbb, if_pos (by simp)] at hkw
        exact absurd hkw (by decide)
    have hval : e.2 = RuleV.str "AUTO_FROM_COMMAND_AFFECTED_SOP_INSTANCE_UID" := by
      have hpair : ((e.1, e.2) : String × RuleV) ∈ rules.toList := by
        simpa using heL
      rw [hkey] at hpair
      exact key_nodup_unique rules.toList hnodup "SOPInstanceUID" e.2 _ hpair hmem
    rw [stepResolve, hval]
    simp only [hkey]
    rw [resolveFlatRule]
    rw [if_pos (by decide)]
    rw [resolveAutoRule]
    rw [if_neg (by decide), if_pos (by decide)]
    exact hu
  have hmemO : ("SOPInstanceUID",
      RuleV.str "AUTO_FROM_COMMAND_AFFECTED_SOP_INSTANCE_UID")
      ∈ orderedProcessingList rules.toList :=
    (mem_orderedProcessingList _ _).mpr hmem
  have hwriter : ruleActualKw "SOPInstanceUID"
      (RuleV.str "AUTO_FROM_COMMAND_AFFECTED_SOP_INSTANCE_UID")
      = "SOPInstanceUID" := by decide
  -- unfold build_data_dataset once
  have hbd : build_data_dataset rules bc.1 scu scp today bc.2
      = (let r := (orderedProcessingList rules.toList).foldl
          (buildStepWith
            (fun m g0 => buildDataFuel (ruleMapDepth rules) m bc.1 scu scp today g0)
            bc.1 scu scp today) ([], false, bc.2)
        (if r.2.1 then some r.1 else none, r.2.2)) := by
    rw [build_data_dataset]
    rw [buildDataFuel]
    cases hl : rules.toList with
    | nil => exact absurd hl hne
    | cons a tl => simp only []
  set r := (orderedProcessingList rules.toList).foldl
    (buildStepWith
      (fun m g0 => buildDataFuel (ruleMapDepth rules) m bc.1 scu scp today g0)
      bc.1 scu scp today) ([], false, bc.2) with hr
  have hhe : r.2.1 = true := by
    rw [hr]
    exact foldl_buildStep_he_write _ bc.1 scu scp today _ _
      ⟨_, hmemO, fun g0 => ⟨DicomValue.str u, hall _ hmemO hwriter g0⟩⟩
  have hlook : dsGet r.1 "SOPInstanceUID" = some (DicomValue.str u) := by
    rw [hr]
    exact foldl_buildStep_lookup _ bc.1 scu scp today _ _ _ _ hall
      (Or.inl ⟨_, hmemO, hwriter⟩)
  have hbd' : build_data_dataset rules bc.1 scu scp today bc.2
      = (some r.1, r.2.2) := by
    rw [hbd]
    simp only [← hr, hhe, if_true]
  have hlen : 0 < r.1.length := dsGet_some_length _ _ _ hlook
  refine ⟨r.1, r.2.2, hbd', hlook.trans hu.symm, ⟨u, hu⟩, ?_⟩
  have hie : rules.toList.isEmpty = false := by
    cases hl : rules.toList with
    | nil => exact absurd hl hne
    | cons a tl => rfl
  rw [generate_p_data_tf_pdus_for_dimse_operation, hrules]
  simp only [← hrsu, ← hbc, hie, Bool.false_eq_true, if_false, hbd', hlen, if_true]

def C5cs : CommandSetItem :=
  ⟨1, some 0, some "1.2.840.10008.5.1.4.1.1.2",
   some "AUTO_GENERATE_UID_INSTANCE", []⟩

def C5rules : RuleMapI :=
  .cons "SOPInstanceUID" (.str "AUTO_FROM_COMMAND_AFFECTED_SOP_INSTANCE_UID") .nil

def C5op : DimseOperation :=
  ⟨"Store CT Image", "C-STORE-RQ", 1, C5cs, some C5rules⟩

def C5props : AssetDicomProperties :=
  ⟨some "SCU1", none, none, some "Acme", none, none, none, []⟩

/-- C5 witness: the correlation theorem applied to a concrete C-STORE
operation. -/
theorem C5_uid_correlation_witness :
    C5op.message_type = "C-STORE-RQ"
    ∧ C5op.command_set.AffectedSOPInstanceUID = some "AUTO_GENERATE_UID_INSTANCE"
    ∧ C5op.dataset_content_rules = some C5rules
    ∧ (("SOPInstanceUID",
        RuleV.str "AUTO_FROM_COMMAND_AFFECTED_SOP_INSTANCE_UID") ∈ C5rules.toList)
    ∧ (C5rules.toList.map Prod.fst).Nodup
    ∧ (∃ dataDs gOut,
      build_data_dataset C5rules
        (build_command_dataset C5op.command_set
          (resolveSharedCmdUid C5op.command_set none 0).1
          (resolveSharedCmdUid C5op.command_set none 0).2).1
        C5props C5props "20260101"
        (build_command_dataset C5op.command_set
          (resolveSharedCmdUid C5op.command_set none 0).1
          (resolveSharedCmdUid C5op.command_set none 0).2).2
        = (some dataDs, gOut)
      ∧ dsGet dataDs "SOPInstanceUID"
          = dsGet (build_command_dataset C5op.command_set
              (resolveSharedCmdUid C5op.command_set none 0).1
              (resolveSharedCmdUid C5op.command_set none 0).2).1
            "AffectedSOPInstanceUID"
      ∧ (∃ u, dsGet (build_command_dataset C5op.command_set
              (resolveSharedCmdUid C5op.command_set none 0).1
              (resolveSharedCmdUid C5op.command_set none 0).2).1
            "AffectedSOPInstanceUID" = some (DicomValue.str u))
      ∧ (generate_p_data_tf_pdus_for_dimse_operation C5op C5props C5props
          "1.2.840.10008.1.2" none "20260101" 0).1
        = [create_p_data_tf_pdu
            (build_command_dataset C5op.command_set
              (resolveSharedCmdUid C5op.command_set none 0).1
              (resolveSharedCmdUid C5op.command_set none 0).2).1
            C5op.presentation_context_id true,
          create_p_data_tf_pdu dataDs C5op.presentation_context_id false]) :=
  ⟨rfl, rfl, rfl, by simp [C5rules, RuleMapI.toList], by simp [C5rules, RuleMapI.toList],
   C5_uid_correlation C5op C5props C5props "1.2.840.10008.1.2" none "20260101" 0
     C5rules rfl rfl rfl (by simp [C5rules, RuleMapI.toList])
     (by simp [C5rules, RuleMapI.toList])⟩


/-- If every rule writing keyword `kw` resolves to `v` and at least one
does, the built data dataset exists and maps `kw` to `v`. -/
theorem build_data_dataset_lookup (rules : RuleMapI) (cmdDs : Dataset)
    (scu scp : AssetDicomProperties) (today : String) (g : Nat)
    (kw : String) (v : DicomValue)
    (hall : ∀ e ∈ orderedProcessingList rules.toList,
      ruleActualKw e.1 e.2 = kw →
      ∀ g0, (stepResolve
          (fun m g0 => buildDataFuel (ruleMapDepth rules) m cmdDs scu scp today g0)
          cmdDs scu scp today e g0).1 = some v)
    (hmem : ∃ e ∈ orderedProcessingList rules.toList,
      ruleActualKw e.1 e.2 = kw) :
    ∃ ds gOut, build_data_dataset rules cmdDs scu scp today g = (some ds, gOut)
      ∧ dsGet ds kw = some v := by
  have hne : rules.toList ≠ [] := by
    rcases hmem with ⟨e, he, _⟩
    intro hnil
    rw [hnil] at he
    simp [orderedProcessingList, sortRulesByKw] at he
  have hbd : build_data_dataset rules cmdDs scu scp today g
      = (let r := (orderedProcessingList rules.toList).foldl
          (buildStepWith
            (fun m g0 => buildDataFuel (ruleMapDepth rules) m cmdDs scu scp today g0)
            cmdDs scu scp today) ([], false, g)
        (if r.2.1 then some r.1 else none, r.2.2)) := by
    rw [build_data_dataset, buildDataFuel]
    cases hl : rules.toList with
    | nil => exact absurd hl hne
    | cons a tl => simp only []
  set r := (orderedProcessingList rules.toList).foldl
    (buildStepWith
      (fun m g0 => buildDataFuel (ruleMapDepth rules) m cmdDs scu scp today g0)
      cmdDs scu scp today) ([], false, g) with hr
  have hhe : r.2.1 = true := by
    rcases hmem with ⟨e, he, hkw⟩
    rw [hr]
    exact foldl_buildStep_he_write _ cmdDs scu scp today _ _
      ⟨e, he, fun g0 => ⟨v, hall e he hkw g0⟩⟩
  have hlook : dsGet r.1 kw = some v := by
    rw [hr]
    exact foldl_buildStep_lookup _ cmdDs scu scp today _ _ _ _ hall (Or.inl hmem)
  exact ⟨r.1, r.2.2, by rw [hbd]; simp only [← hr, hhe, if_true], hlook⟩

/-- If no rule writes keyword `kw`, any built data dataset lacks `kw`. -/
theorem build_data_dataset_frame (rules : RuleMapI) (cmdDs : Dataset)
    (scu scp : AssetDicomProperties) (today : String) (g : Nat) (kw : String)
    (hnone : ∀ e ∈ orderedProcessingList rules.toList,
      ruleActualKw e.1 e.2 ≠ kw) :
    ∀ ds gOut, build_data_dataset rules cmdDs scu scp today g = (some ds, gOut) →
      dsGet ds kw = none := by
  intro ds gOut hds
  rw [build_data_dataset, buildDataFuel] at hds
  cases hl : rules.toList with
  | nil =>
    rw [hl] at hds
    simp at hds
  | cons a tl =>
    rw [hl] at hds
    simp only [] at hds
    rcases hhe : ((orderedProcessingList (a :: tl)).foldl
        (buildStepWith
          (fun m g0 => buildDataFuel (ruleMapDepth rules) m cmdDs scu scp today g0)
          cmdDs scu scp today) ([], false, g)).2.1 with _ | _
    · rw [hhe] at hds
      simp at hds
    · rw [hhe] at hds
      simp only [if_true] at hds
      have := foldl_buildStep_frame
        (fun m g0 => buildDataFuel (ruleMapDepth rules) m cmdDs scu scp today g0)
        cmdDs scu scp today kw (orderedProcessingList (a :: tl)) ([], false, g)
        (by rw [← hl]; exact hnone)
      have hds1 : some ((orderedProcessingList (a :: tl)).foldl
          (buildStepWith
            (fun m g0 => buildDataFuel (ruleMapDepth rules) m cmdDs scu scp today g0)
            cmdDs scu scp today) ([], false, g)).1 = some ds :=
        ((Prod.mk.injEq _ _ _ _).mp hds).1
      rw [← Option.some_inj.mp hds1]
      exact this

/-- C8 (amended): the ModelName→ManufacturerModelName remap applies exactly
when the `ModelName` rule is one of the two asset model-name sentinels
(`AUTO_FROM_ASSET_SCU_MODEL_NAME` / `AUTO_FROM_ASSET_SCP_MODEL_NAME`);
sentinel rules write the resolved model name under ManufacturerModelName
and leave no ModelName element, while an explicit (non-`AUTO_`) value is
written under ModelName itself and no ManufacturerModelName element is
produced. -/
theorem C8_model_name_remap (rules : RuleMapI) (cmdDs : Dataset)
    (scu scp : AssetDicomProperties) (today : String) (g : Nat)
    (r : String) (m : String)
    (hmem : ("ModelName", RuleV.str r) ∈ rules.toList)
    (hnodup : (rules.toList.map Prod.fst).Nodup)
    (hnoMMN : "ManufacturerModelName" ∉ rules.toList.map Prod.fst) :
    (r = "AUTO_FROM_ASSET_SCU_MODEL_NAME" → scu.model_name = some m →
      ∃ ds gOut, build_data_dataset rules cmdDs scu scp today g = (some ds, gOut)
        ∧ dsGet ds "ManufacturerModelName" = some (.str m)
        ∧ dsGet ds "ModelName" = none)
    ∧ (r = "AUTO_FROM_ASSET_SCP_MODEL_NAME" → scp.model_name = some m →
      ∃ ds gOut, build_data_dataset rules cmdDs scu scp today g = (some ds, gOut)
        ∧ dsGet ds "ManufacturerModelName" = some (.str m)
        ∧ dsGet ds "ModelName" = none)
    ∧ (strStarts r "AUTO_" = false →
      ∃ ds gOut, build_data_dataset rules cmdDs scu scp today g = (some ds, gOut)
        ∧ dsGet ds "ModelName" = some (.str r)
        ∧ dsGet ds "ManufacturerModelName" = none) := by
  have fact1 : ∀ e ∈ rules.toList, e.1 = "ModelName" → e.2 = RuleV.str r := by
    intro e he h1
    have hpair : ((e.1, e.2) : String × RuleV) ∈ rules.toList := by simpa using he
    rw [h1] at hpair
    exact key_nodup_unique rules.toList hnodup "ModelName" e.2 _ hpair hmem
  have fact2 : ∀ e ∈ rules.toList, e.1 ≠ "ManufacturerModelName" := by
    intro e he h1
    exact hnoMMN (List.mem_map.mpr ⟨e, he, h1⟩)
  refine ⟨?_, ?_, ?_⟩
  · -- SCU sentinel
    rintro rfl hscu
    obtain ⟨ds, gOut, hbuild, hlook⟩ :=
      build_data_dataset_lookup rules cmdDs scu scp today g
        "ManufacturerModelName" (.str m)
        (by
          rintro ⟨e1, e2⟩ he hkw g0
          have heL := (mem_orderedProcessingList _ _).mp he
          unfold ruleActualKw at hkw
          rcases hbb : (e1 == "ModelName")
              && (ruleIsStr e2 "AUTO_FROM_ASSET_SCU_MODEL_NAME"
                || ruleIsStr e2 "AUTO_FROM_ASSET_SCP_MODEL_NAME") with _ | _
          · rw [hbb, if_neg (by simp)] at hkw
            exact absurd hkw (fact2 _ heL)
          · have h1 : e1 = "ModelName" := by
              have := (Bool.and_eq_true _ _).mp hbb
              exact beq_iff_eq.mp this.1
            have h2 := fact1 _ heL h1
            simp only at h2
            rw [h2]
            show (stepResolve _ cmdDs scu scp today
              (e1, RuleV.str "AUTO_FROM_ASSET_SCU_MODEL_NAME") g0).1
              = some (DicomValue.str m)
            show (Option.map DicomValue.str scu.model_name, g0).1
              = some (DicomValue.str m)
            rw [hscu]
            rfl)
        (⟨("ModelName", RuleV.str "AUTO_FROM_ASSET_SCU_MODEL_NAME"),
          (mem_orderedProcessingList _ _).mpr hmem, by decide⟩)
    refine ⟨ds, gOut, hbuild, hlook, ?_⟩
    refine build_data_dataset_frame rules cmdDs scu scp today g "ModelName"
      ?_ ds gOut hbuild
    rintro ⟨e1, e2⟩ he hkw
    have heL := (mem_orderedProcessingList _ _).mp he
    unfold ruleActualKw at hkw
    rcases hbb : (e1 == "ModelName")
        && (ruleIsStr e2 "AUTO_FROM_ASSET_SCU_MODEL_NAME"
          || ruleIsStr e2 "AUTO_FROM_ASSET_SCP_MODEL_NAME") with _ | _
    · rw [hbb, if_neg (by simp)] at hkw
      have h2 := fact1 _ heL hkw
      simp only at h2
      have h1 : e1 = "ModelName" := hkw
      rw [h1, h2] at hbb
      exact absurd hbb (by decide)
    · rw [hbb, if_pos (by simp)] at hkw
      exact absurd hkw (by decide)
  · -- SCP sentinel
    rintro rfl hscp
    obtain ⟨ds, gOut, hbuild, hlook⟩ :=
      build_data_dataset_lookup rules cmdDs scu scp today g
        "ManufacturerModelName" (.str m)
        (by
          rintro ⟨e1, e2⟩ he hkw g0
          have heL := (mem_orderedProcessingList _ _).mp he
          unfold ruleActualKw at hkw
          rcases hbb : (e1 == "ModelName")
              && (ruleIsStr e2 "AUTO_FROM_ASSET_SCU_MODEL_NAME"
                || ruleIsStr e2 "AUTO_FROM_ASSET_SCP_MODEL_NAME") with _ | _
          · rw [hbb, if_neg (by simp)] at hkw
            exact absurd hkw (fact2 _ heL)
          · have h1 : e1 = "ModelName" := by
              have := (Bool.and_eq_true _ _).mp hbb
              exact beq_iff_eq.mp this.1
            have h2 := fact1 _ heL h1
            simp only at h2
            rw [h2]
            show (stepResolve _ cmdDs scu scp today
              (e1, RuleV.str "AUTO_FROM_ASSET_SCP_MODEL_NAME") g0).1
              = some (DicomValue.str m)
            show (Option.map DicomValue.str scp.model_name, g0).1
              = some (DicomValue.str m)
            rw [hscp]
            rfl)
        (⟨("ModelName", RuleV.str "AUTO_FROM_ASSET_SCP_MODEL_NAME"),
          (mem_orderedProcessingList _ _).mpr hmem, by decide⟩)
    refine ⟨ds, gOut, hbuild, hlook, ?_⟩
    refine build_data_dataset_frame rules cmdDs scu scp today g "ModelName"
      ?_ ds gOut hbuild
    rintro ⟨e1, e2⟩ he hkw
    have heL := (mem_orderedProcessingList _ _).mp he
    unfold ruleActualKw at hkw
    rcases hbb : (e1 == "ModelName")
        && (ruleIsStr e2 "AUTO_FROM_ASSET_SCU_MODEL_NAME"
          || ruleIsStr e2 "AUTO_FROM_ASSET_SCP_MODEL_NAME") with _ | _
    · rw [hbb, if_neg (by simp)] at hkw
      have h2 := fact1 _ heL hkw
      simp only at h2
      have h1 : e1 = "ModelName" := hkw
      rw [h1, h2] at hbb
      exact absurd hbb (by decide)
    · rw [hbb, if_pos (by simp)] at hkw
      exact absurd hkw (by decide)
  · -- explicit value
    intro hr
    have hsent1 : (r == "AUTO_FROM_ASSET_SCU_MODEL_NAME") = false := by
      rcases hb : (r == "AUTO_FROM_ASSET_SCU_MODEL_NAME") with _ | _
      · rfl
      · rw [beq_iff_eq.mp hb] at hr
        exact absurd hr (by decide)
    have hsent2 : (r == "AUTO_FROM_ASSET_SCP_MODEL_NAME") = false := by
      rcases hb : (r == "AUTO_FROM_ASSET_SCP_MODEL_NAME") with _ | _
      · rfl
      · rw [beq_iff_eq.mp hb] at hr
        exact absurd hr (by decide)
    obtain ⟨ds, gOut, hbuild, hlook⟩ :=
      build_data_dataset_lookup rules cmdDs scu scp today g
        "ModelName" (.str r)
        (by
          rintro ⟨e1, e2⟩ he hkw g0
          have heL := (mem_orderedProcessingList _ _).mp he
          unfold ruleActualKw at hkw
          rcases hbb : (e1 == "ModelName")
              && (ruleIsStr e2 "AUTO_FROM_ASSET_SCU_MODEL_NAME"
                || ruleIsStr e2 "AUTO_FROM_ASSET_SCP_MODEL_NAME") with _ | _
          · rw [hbb, if_neg (by simp)] at hkw
            have h2 := fact1 _ heL hkw
            simp only at h2
            rw [h2]
            show (stepResolve _ cmdDs scu scp today (e1, RuleV.str r) g0).1
              = some (DicomValue.str r)
            show (resolveFlatRule e1 (RuleV.str r) cmdDs scu scp today g0).1
              = some (DicomValue.str r)
            rw [resolveFlatRule]
            rw [if_neg (by rw [hr]; exact fun hh => Bool.false_ne_true hh)]
          · rw [hbb, if_pos (by simp)] at hkw
            exact absurd hkw (by decide))
        (by
          refine ⟨("ModelName", RuleV.str r),
            (mem_orderedProcessingList _ _).mpr hmem, ?_⟩
          unfold ruleActualKw
          rw [if_neg ?_]
          simp only [ruleIsStr, hsent1, hsent2]
          simp)
    refine ⟨ds, gOut, hbuild, hlook, ?_⟩
    refine build_data_dataset_frame rules cmdDs scu scp today g
      "ManufacturerModelName" ?_ ds gOut hbuild
    rintro ⟨e1, e2⟩ he hkw
    have heL := (mem_orderedProcessingList _ _).mp he
    unfold ruleActualKw at hkw
    rcases hbb : (e1 == "ModelName")
        && (ruleIsStr e2 "AUTO_FROM_ASSET_SCU_MODEL_NAME"
          || ruleIsStr e2 "AUTO_FROM_ASSET_SCP_MODEL_NAME") with _ | _
    · rw [hbb, if_neg (by simp)] at hkw
      exact absurd hkw (fact2 _ heL)
    · have h1 : e1 = "ModelName" := by
        have := (Bool.and_eq_true _ _).mp hbb
        exact beq_iff_eq.mp this.1
      have h2 := fact1 _ heL h1
      simp only at h2
      rw [h2] at hbb
      simp only [ruleIsStr, hsent1, hsent2] at hbb
      simp at hbb

/-- C8 counterexample: a `ModelName` rule carrying an explicit value is
written under `ModelName`, not `ManufacturerModelName`, contradicting the
claim that every rule form is remapped. -/
theorem C8_counterexample :
    dsGet ((build_data_dataset
        (RuleMapI.cons "ModelName" (RuleV.str "UltraX") RuleMapI.nil)
        [] ⟨none, none, none, none, none, none, none, []⟩
        ⟨none, none, none, none, none, none, none, []⟩ "20260101" 0).1.getD [])
      "ManufacturerModelName" = none
    ∧ dsGet ((build_data_dataset
        (RuleMapI.cons "ModelName" (RuleV.str "UltraX") RuleMapI.nil)
        [] ⟨none, none, none, none, none, none, none, []⟩
        ⟨none, none, none, none, none, none, none, []⟩ "20260101" 0).1.getD [])
      "ModelName" = some (DicomValue.str "UltraX") :=
  ⟨rfl, rfl⟩

def C8rules : RuleMapI :=
  .cons "ModelName" (.str "AUTO_FROM_ASSET_SCU_MODEL_NAME") .nil

def C8scu : AssetDicomProperties :=
  ⟨some "CT_SCANNER_AE", none, none, some "Acme", some "UltraScan 5000",
   none, none, []⟩

/-- C8 witness: the amended theorem applied to a concrete sentinel rule. -/
theorem C8_model_name_remap_witness :
    (("ModelName", RuleV.str "AUTO_FROM_ASSET_SCU_MODEL_NAME") ∈ C8rules.toList)
    ∧ (C8rules.toList.map Prod.fst).Nodup
    ∧ ("ManufacturerModelName" ∉ C8rules.toList.map Prod.fst)
    ∧ C8scu.model_name = some "UltraScan 5000"
    ∧ (∃ ds gOut,
        build_data_dataset C8rules [] C8scu C8scu "20260101" 0 = (some ds, gOut)
        ∧ dsGet ds "ManufacturerModelName" = some (.str "UltraScan 5000")
        ∧ dsGet ds "ModelName" = none) :=
  ⟨by simp [C8rules, RuleMapI.toList],
   by simp [C8rules, RuleMapI.toList],
   by simp [C8rules, RuleMapI.toList],
   rfl,
   (C8_model_name_remap C8rules [] C8scu C8scu "20260101" 0
      "AUTO_FROM_ASSET_SCU_MODEL_NAME" "UltraScan 5000"
      (by simp [C8rules, RuleMapI.toList])
      (by simp [C8rules, RuleMapI.toList])
      (by simp [C8rules, RuleMapI.toList])).1 rfl rfl⟩


/-- C9: every DIMSE operation generates a PDU list beginning with exactly
one command PDU (carrying the built command dataset), followed by at most
one data PDU; the data PDU is present if and only if dataset content rules
are supplied, are non-empty, and resolve to a dataset with at least one
element.  Rules that resolve to an empty dataset (e.g. a single
unset-asset-property rule) produce no data PDU. -/
theorem C9_pdu_list_shape (op : DimseOperation) (scu scp : AssetDicomProperties)
    (ts : String) (shared : Option String) (today : String) (g : Nat) :
    ((generate_p_data_tf_pdus_for_dimse_operation op scu scp ts shared today g).1.length = 1
      ∨ (generate_p_data_tf_pdus_for_dimse_operation op scu scp ts shared today g).1.length = 2)
    ∧ (generate_p_data_tf_pdus_for_dimse_operation op scu scp ts shared today g).1.getD 0 []
        = create_p_data_tf_pdu
            (build_command_dataset op.command_set
              (resolveSharedCmdUid op.command_set shared g).1
              (resolveSharedCmdUid op.command_set shared g).2).1
            op.presentation_context_id true
    ∧ ((generate_p_data_tf_pdus_for_dimse_operation op scu scp ts shared today g).1.length = 2 ↔
        ∃ rules, op.dataset_content_rules = some rules ∧ rules.toList ≠ []
          ∧ ∃ dataDs,
            (build_data_dataset rules
              (build_command_dataset op.command_set
                (resolveSharedCmdUid op.command_set shared g).1
                (resolveSharedCmdUid op.command_set shared g).2).1
              scu scp today
              (build_command_dataset op.command_set
                (resolveSharedCmdUid op.command_set shared g).1
                (resolveSharedCmdUid op.command_set shared g).2).2).1 = some dataDs
            ∧ 0 < dataDs.length)
    ∧ (generate_p_data_tf_pdus_for_dimse_operation
        ⟨"Store", "C-STORE-RQ", 1, ⟨1, none, none, none, []⟩,
          some (.cons "Manufacturer" (.str "AUTO_FROM_ASSET_SCU_MANUFACTURER") .nil)⟩
        ⟨none, none, none, none, none, none, none, []⟩
        ⟨none, none, none, none, none, none, none, []⟩
        "1.2.840.10008.1.2" none "20260101" 0).1.length = 1 := by
  set rsu := resolveSharedCmdUid op.command_set shared g with hrsu
  set bc := build_command_dataset op.command_set rsu.1 rsu.2 with hbc
  refine ⟨?_, ?_, ?_, rfl⟩ <;>
    rw [generate_p_data_tf_pdus_for_dimse_operation] <;>
    rcases hdr : op.dataset_content_rules with _ | rules
  · simp
  · simp only [← hrsu, ← hbc]
    rcases hie : rules.toList.isEmpty with _ | _
    · rw [if_neg (by simp [hie])]
      rcases hbd : (build_data_dataset rules bc.1 scu scp today bc.2).1 with _ | dataDs
      · simp [hbd]
      · rcases hlen : decide (0 < dataDs.length) with _ | _
        · simp only [hbd]
          rw [if_neg (by simpa using hlen)]
          simp
        · simp only [hbd]
          rw [if_pos (by simpa using hlen)]
          simp
    · rw [if_pos (by simp [hie])]
      simp
  · simp
  · simp only [← hrsu, ← hbc]
    rcases hie : rules.toList.isEmpty with _ | _
    · rw [if_neg (by simp [hie])]
      rcases hbd : (build_data_dataset rules bc.1 scu scp today bc.2).1 with _ | dataDs
      · simp [hbd]
      · rcases hlen : decide (0 < dataDs.length) with _ | _
        · simp only [hbd]
          rw [if_neg (by simpa using hlen)]
          simp
        · simp only [hbd]
          rw [if_pos (by simpa using hlen)]
          simp
    · rw [if_pos (by simp [hie])]
      simp
  · constructor
    · intro h; simp at h
    · rintro ⟨rules, hr, _⟩
      cases hr
  · simp only [← hrsu, ← hbc]
    rcases hie : rules.toList.isEmpty with _ | _
    · rw [if_neg (by simp [hie])]
      rcases hbd : (build_data_dataset rules bc.1 scu scp today bc.2).1 with _ | dataDs
      · constructor
        · intro h; simp at h
        · rintro ⟨rules', hr', hne', dataDs', hbd', _⟩
          cases hr'
          rw [hbd] at hbd'
          cases hbd'
      · rcases hlen : decide (0 < dataDs.length) with _ | _
        · simp only [hbd]
          rw [if_neg (by simpa using hlen)]
          constructor
          · intro h; simp at h
          · rintro ⟨rules', hr', hne', dataDs', hbd', hlen'⟩
            cases hr'
            rw [hbd] at hbd'
            cases hbd'
            exact absurd hlen' (by simpa using hlen)
        · simp only [hbd]
          rw [if_pos (by simpa using hlen)]
          constructor
          · intro _
            exact ⟨rules, rfl, by simpa using hie, dataDs, hbd, by simpa using hlen⟩
          · intro _; rfl
    · rw [if_pos (by simp [hie])]
      constructor
      · intro h; simp at h
      · rintro ⟨rules', hr', hne', _⟩
        cases hr'
        exact absurd (by simpa using hie) hne'

/-! ### C4: presentation-context negotiation (scene_processor.py lines 130-216) -/

/-- Python `str.upper()` on one code point, restricted to ASCII (DICOM role
strings are ASCII). -/
def upperNat (n : Nat) : Nat := if 97 ≤ n ∧ n ≤ 122 then n - 32 else n

def strNats (s : String) : List Nat := s.data.map Char.toNat

/-- `role.upper() in allowed`. -/
def roleUpperIn (role : String) (allowed : List String) : Bool :=
  allowed.any (fun a => (strNats role).map upperNat == strNats a)

/-- One presentation-context item of an A-ASSOCIATE-RQ (models.py
`PresentationContextItem`). -/
structure PresentationContextItem where
  id : Nat
  abstract_syntax : String
  transfer_syntaxes : List String
  deriving Repr, DecidableEq

/-- One entry of `presentation_contexts_results_input` for the
A-ASSOCIATE-AC. -/
structure AcResultItem where
  id : Nat
  result : Nat
  transfer_syntax : String
  deriving Repr, DecidableEq

/-- Python dict insertion: an existing key keeps its position and gets the
new value; a new key is appended. -/
def sopMapInsert (k : String) (v : SopClassDefinition) :
    List (String × SopClassDefinition) → List (String × SopClassDefinition)
  | [] => [(k, v)]
  | e :: rest => if e.1 == k then (k, v) :: rest else e :: sopMapInsert k v rest

/-- Python dict lookup `m[k]` / `k in m`. -/
def sopMapGet (m : List (String × SopClassDefinition)) (k : String) :
    Option SopClassDefinition :=
  (m.find? (fun e => e.1 == k)).map Prod.snd

/-- `{sop.sop_class_uid: sop for sop in sops if sop.role.upper() in roles}`
(scene_processor.py lines 170-177). -/
def buildSopMap (roles : List String) (sops : List SopClassDefinition) :
    List (String × SopClassDefinition) :=
  (sops.filter (fun sop => roleUpperIn sop.role roles)).foldl
    (fun m sop => sopMapInsert sop.sop_class_uid sop m) []

/-- `[ts for ts in scu_sop_def.transfer_syntaxes if ts in
scp_sop_def.transfer_syntaxes]` (scene_processor.py lines 188-191). -/
def tsIntersection (scuTs scpTs : List String) : List String :=
  scuTs.filter (fun ts => scpTs.contains ts)

/-- Loop body of the automatic branch of `_negotiate_presentation_contexts`
(scene_processor.py lines 179-208); the accumulator is (RQ items so far,
AC results so far, `next_pc_id`). -/
def negotiateStep (scpMap : List (String × SopClassDefinition))
    (acc : List PresentationContextItem × List AcResultItem × Nat)
    (p : String × SopClassDefinition) :
    List PresentationContextItem × List AcResultItem × Nat :=
  match sopMapGet scpMap p.1 with
  | none => acc
  | some q =>
    match tsIntersection p.2.transfer_syntaxes q.transfer_syntaxes with
    | [] => acc
    | t :: _ =>
      (acc.1 ++ [⟨acc.2.2, p.1, p.2.transfer_syntaxes⟩],
       acc.2.1 ++ [⟨acc.2.2, 0, t⟩],
       acc.2.2 + 2)

/-- `DicomSceneProcessor._negotiate_presentation_contexts`
(scene_processor.py lines 130-216): explicit contexts are echoed into the
RQ and accepted with their first transfer syntax (or rejected with result 4
when the list is empty); otherwise contexts are auto-negotiated from the
role-filtered SCU/SCP capability maps. -/
def negotiate_presentation_contexts
    (explicit_presentation_contexts : Option (List PresentationContextItem))
    (scu_props scp_props : AssetDicomProperties) :
    List PresentationContextItem × List AcResultItem :=
  match explicit_presentation_contexts with
  | some pcs =>
    (pcs, pcs.map (fun pc =>
      match pc.transfer_syntaxes with
      | [] => ⟨pc.id, 4, "1.2.840.10008.1.2"⟩
      | t :: _ => ⟨pc.id, 0, t⟩))
  | none =>
    let scpMap := buildSopMap ["SCP", "BOTH"] scp_props.supported_sop_classes
    let r := (buildSopMap ["SCU", "BOTH"] scu_props.supported_sop_classes).foldl
      (negotiateStep scpMap) ([], [], 1)
    (r.1, r.2.1)

/-- Modelled from the spec: the abstract syntaxes "supported by both roles"
whose transfer-syntax intersection is non-empty, in SCU capability order,
each paired with the SCU's full transfer-syntax list and the intersection;
abstract syntaxes with an empty intersection are omitted. -/
def commonAbstractSyntaxes (scpMap : List (String × SopClassDefinition)) :
    List (String × SopClassDefinition) → List (String × List String × List String)
  | [] => []
  | p :: rest =>
    match sopMapGet scpMap p.1 with
    | none => commonAbstractSyntaxes scpMap rest
    | some q =>
      match tsIntersection p.2.transfer_syntaxes q.transfer_syntaxes with
      | [] => commonAbstractSyntaxes scpMap rest
      | t :: ts =>
        (p.1, p.2.transfer_syntaxes, t :: ts) :: commonAbstractSyntaxes scpMap rest

/-- Modelled from the spec: assign "the next available odd id (starting at
1, incrementing by 2)", proposing the SCU's full transfer-syntax list in
the RQ and accepting (result 0) with the first member of the intersection
in the AC. -/
def assignOddIds (n : Nat) :
    List (String × List String × List String) →
    List PresentationContextItem × List AcResultItem
  | [] => ([], [])
  | (uid, full, common) :: rest =>
    let r := assignOddIds (n + 2) rest
    (⟨n, uid, full⟩ :: r.1, ⟨n, 0, common.headD ""⟩ :: r.2)

/-- Modelled from the spec: the automatic-negotiation outcome described in
claim C4. -/
def autoNegotiationSpec (scu_props scp_props : AssetDicomProperties) :
    List PresentationContextItem × List AcResultItem :=
  assignOddIds 1
    (commonAbstractSyntaxes
      (buildSopMap ["SCP", "BOTH"] scp_props.supported_sop_classes)
      (buildSopMap ["SCU", "BOTH"] scu_props.supported_sop_classes))

lemma negotiateFold_eq_assign (scpMap : List (String × SopClassDefinition))
    (L : List (String × SopClassDefinition))
    (rq : List PresentationContextItem) (ac : List AcResultItem) (n : Nat) :
    L.foldl (negotiateStep scpMap) (rq, ac, n) =
      (rq ++ (assignOddIds n (commonAbstractSyntaxes scpMap L)).1,
       ac ++ (assignOddIds n (commonAbstractSyntaxes scpMap L)).2,
       n + 2 * (commonAbstractSyntaxes scpMap L).length) := by
  induction L generalizing rq ac n with
  | nil => simp [assignOddIds, commonAbstractSyntaxes]
  | cons p rest ih =>
    rw [List.foldl_cons]
    rcases h : sopMapGet scpMap p.1 with _ | q
    · have hs : negotiateStep scpMap (rq, ac, n) p = (rq, ac, n) := by
        simp [negotiateStep, h]
      rw [hs, ih]
      simp only [commonAbstractSyntaxes, h]
    · rcases hc : tsIntersection p.2.transfer_syntaxes q.transfer_syntaxes
        with _ | ⟨t, ts⟩
      · have hs : negotiateStep scpMap (rq, ac, n) p = (rq, ac, n) := by
          simp [negotiateStep, h, hc]
        rw [hs, ih]
        simp only [commonAbstractSyntaxes, h, hc]
      · have hs : negotiateStep scpMap (rq, ac, n) p =
            (rq ++ [⟨n, p.1, p.2.transfer_syntaxes⟩], ac ++ [⟨n, 0, t⟩], n + 2) := by
          simp [negotiateStep, h, hc]
        rw [hs, ih]
        simp only [commonAbstractSyntaxes, h, hc, assignOddIds, List.length_cons,
          Prod.mk.injEq, List.headD_cons]
        refine ⟨by simp, by simp, by omega⟩

/-- C4: in automatic negotiation mode, `_negotiate_presentation_contexts`
realises exactly the spec-described outcome: every abstract syntax
supported by both roles with a non-empty transfer-syntax intersection gets
the next odd context id (1, 3, 5, ...), is proposed in the RQ with the
SCU's full transfer-syntax list, and is accepted (result 0) in the AC with
the first member of the intersection; abstract syntaxes with an empty
intersection appear in neither list.  In particular SCU
{Verification:[Implicit,Explicit], CT:[Explicit]} against SCP
{Verification:[Explicit], CT:[Implicit,Explicit]} yields exactly two
contexts, ids 1 and 3, both accepted with Explicit VR Little Endian. -/
theorem C4_auto_negotiation :
    (∀ scu_props scp_props : AssetDicomProperties,
      negotiate_presentation_contexts none scu_props scp_props =
        autoNegotiationSpec scu_props scp_props) ∧
    negotiate_presentation_contexts none
        ⟨none, none, none, none, none, none, none,
          [⟨"1.2.840.10008.1.1", "SCU",
             ["1.2.840.10008.1.2", "1.2.840.10008.1.2.1"]⟩,
           ⟨"1.2.840.10008.5.1.4.1.1.2", "SCU", ["1.2.840.10008.1.2.1"]⟩]⟩
        ⟨none, none, none, none, none, none, none,
          [⟨"1.2.840.10008.1.1", "SCP", ["1.2.840.10008.1.2.1"]⟩,
           ⟨"1.2.840.10008.5.1.4.1.1.2", "SCP",
             ["1.2.840.10008.1.2", "1.2.840.10008.1.2.1"]⟩]⟩ =
      ([⟨1, "1.2.840.10008.1.1",
           ["1.2.840.10008.1.2", "1.2.840.10008.1.2.1"]⟩,
        ⟨3, "1.2.840.10008.5.1.4.1.1.2", ["1.2.840.10008.1.2.1"]⟩],
       [⟨1, 0, "1.2.840.10008.1.2.1"⟩, ⟨3, 0, "1.2.840.10008.1.2.1"⟩]) := by
  constructor
  · intro scu_props scp_props
    simp only [negotiate_presentation_contexts, autoNegotiationSpec]
    rw [negotiateFold_eq_assign]
    simp
  · rfl

/-! ### Scene model (models.py) and scene processing (scene_processor.py) -/

/-- `Node` (models.py lines 106-113). -/
structure Node where
  node_id : String
  ip_address : String
  mac_address : String
  dicom_port : Option Nat
  deriving Repr, DecidableEq

/-- `Asset` (models.py lines 124-142). -/
structure Asset where
  asset_id : String
  name : String
  asset_template_id_ref : Option String
  nodes : List Node
  dicom_properties : AssetDicomProperties
  deriving Repr, DecidableEq

/-- `LinkConnectionDetails` (models.py lines 158-168). -/
structure LinkConnectionDetails where
  source_mac : String
  destination_mac : String
  source_ip : String
  destination_ip : String
  source_port : Nat
  destination_port : Nat
  deriving Repr, DecidableEq

/-- `LinkDicomConfiguration` (models.py lines 290-330). -/
structure LinkDicomConfiguration where
  scu_asset_id_ref : String
  scp_asset_id_ref : String
  calling_ae_title_override : Option String
  called_ae_title_override : Option String
  explicit_presentation_contexts : Option (List PresentationContextItem)
  dimse_sequence : List DimseOperation

/-- `Link` (models.py lines 391-430). -/
structure Link where
  link_id : String
  source_asset_id_ref : String
  source_node_id_ref : String
  destination_asset_id_ref : String
  destination_node_id_ref : String
  connection_details : Option LinkConnectionDetails
  dicom_config : LinkDicomConfiguration

/-- `Scene` (models.py lines 444-453). -/
structure Scene where
  scene_id : String
  name : String
  assets : List Asset
  links : List Link

/-- scene_processor.py exception hierarchy: `AssetNotFoundError` and
`NodeNotFoundError` both extend `DicomSceneProcessorError`;
`processorError` stands for any other `DicomSceneProcessorError` or
unexpected exception raised while processing a link. -/
inductive SceneError where
  | assetNotFound (asset_id : String)
  | nodeNotFound (asset_id node_id : String)
  | processorError (msg : String)
  deriving Repr, DecidableEq

/-- Python dict insertion: an existing key keeps its position and gets the
new value; a new key is appended (generic version). -/
def dictUpsert {α : Type} (k : String) (v : α) :
    List (String × α) → List (String × α)
  | [] => [(k, v)]
  | e :: rest => if e.1 == k then (k, v) :: rest else e :: dictUpsert k v rest

/-- Python `m.get(k)`. -/
def dictGet {α : Type} (m : List (String × α)) (k : String) : Option α :=
  (m.find? (fun e => e.1 == k)).map Prod.snd

/-- `self._asset_map = {asset.asset_id: asset for asset in scene.assets}`
(scene_processor.py line 57). -/
def buildAssetMap (assets : List Asset) : List (String × Asset) :=
  assets.foldl (fun m a => dictUpsert a.asset_id a m) []

/-- `_get_asset_by_id` (scene_processor.py lines 59-63). -/
def get_asset_by_id (assetMap : List (String × Asset)) (asset_id : String) :
    Except SceneError Asset :=
  match dictGet assetMap asset_id with
  | none => Except.error (.assetNotFound asset_id)
  | some a => Except.ok a

/-- `_get_node_from_asset` (scene_processor.py lines 65-69): first node
with a matching id, else `NodeNotFoundError`. -/
def get_node_from_asset (asset : Asset) (node_id : String) :
    Except SceneError Node :=
  match asset.nodes.find? (fun n => n.node_id == node_id) with
  | none => Except.error (.nodeNotFound asset.asset_id node_id)
  | some n => Except.ok n

/-- Field-wise override used by the template merge. -/
def overrideField {α : Type} (ov base : Option α) : Option α :=
  match ov with
  | some x => some x
  | none => base

/-- `resolve_asset_dicom_properties` (resolver.py lines 18-109).  The
template directory is modelled as an association list from template id to
the template's `dicom_properties`; a missing template raises
`AssetTemplateNotFoundError`.  The pydantic `exclude_unset` merge is
modelled field-wise (a set `Option` field of the asset overrides the
template; the model does not distinguish a field explicitly set to `None`
from an unset one, and an empty `supported_sop_classes` list stands for an
unset one). -/
def resolve_asset_dicom_properties (asset : Asset)
    (templates : List (String × AssetDicomProperties)) :
    Except String AssetDicomProperties :=
  match asset.asset_template_id_ref with
  | none => Except.ok asset.dicom_properties
  | some tid =>
    match dictGet templates tid with
    | none => Except.error ("Asset template file not found: " ++ tid)
    | some base =>
      let ov := asset.dicom_properties
      Except.ok
        ⟨overrideField ov.ae_title base.ae_title,
         overrideField ov.implementation_class_uid base.implementation_class_uid,
         overrideField ov.implementation_version_name base.implementation_version_name,
         overrideField ov.manufacturer base.manufacturer,
         overrideField ov.model_name base.model_name,
         overrideField ov.software_versions base.software_versions,
         overrideField ov.device_serial_number base.device_serial_number,
         if ov.supported_sop_classes.isEmpty then base.supported_sop_classes
         else ov.supported_sop_classes⟩

/-- `_get_resolved_dicom_properties` (scene_processor.py lines 71-81):
consult the cache, else look the asset up and resolve it, wrapping
resolver errors as plain `DicomSceneProcessorError`. -/
def get_resolved_dicom_properties (assetMap : List (String × Asset))
    (templates : List (String × AssetDicomProperties))
    (cache : List (String × AssetDicomProperties)) (asset_id : String) :
    Except SceneError (AssetDicomProperties × List (String × AssetDicomProperties)) :=
  match dictGet cache asset_id with
  | some props => Except.ok (props, cache)
  | none =>
    match get_asset_by_id assetMap asset_id with
    | Except.error e => Except.error e
    | Except.ok asset =>
      match resolve_asset_dicom_properties asset templates with
      | Except.error msg => Except.error (.processorError msg)
      | Except.ok props => Except.ok (props, dictUpsert asset_id props cache)

/-- `random.randint(a, b)` with the threaded deterministic generator. -/
def pyRandint (a b g : Nat) : Nat × Nat := (a + g % (b - a + 1), g + 1)

/-- `_derive_connection_details` (scene_processor.py lines 83-128):
explicit details win; otherwise they are derived from the source and
destination nodes, with an ephemeral source port and the destination
node's DICOM port (Python `or 104`: a missing or zero port becomes 104). -/
def derive_connection_details (assetMap : List (String × Asset)) (link : Link)
    (g : Nat) : Except SceneError (LinkConnectionDetails × Nat) :=
  match link.connection_details with
  | some cd => Except.ok (cd, g)
  | none =>
    match get_asset_by_id assetMap link.source_asset_id_ref with
    | Except.error e => Except.error e
    | Except.ok source_asset =>
      match get_node_from_asset source_asset link.source_node_id_ref with
      | Except.error e => Except.error e
      | Except.ok source_node =>
        match get_asset_by_id assetMap link.destination_asset_id_ref with
        | Except.error e => Except.error e
        | Except.ok dest_asset =>
          match get_node_from_asset dest_asset link.destination_node_id_ref with
          | Except.error e => Except.error e
          | Except.ok dest_node =>
            let r := pyRandint 49152 65535 g
            Except.ok
              (⟨source_node.mac_address, dest_node.mac_address,
                source_node.ip_address, dest_node.ip_address, r.1,
                match dest_node.dicom_port with
                | none => 104
                | some p => if p = 0 then 104 else p⟩, r.2)

/-! ### Association PDU byte encoding

The repository builds A-ASSOCIATE-RQ/AC PDUs through pynetdicom
(utils.py `create_associate_rq_pdu` / `create_associate_ac_pdu`), whose
encoder is external to this repository; the byte layout below is
modelled from the spec's description of the PDU structure. -/

/-- Big-endian 2-byte encoding (item length fields). -/
def beU16 (n : Nat) : List Nat := [n / 2 ^ 8 % 256, n % 256]

/-- Modelled from the spec: a DICOM upper-layer variable item — 1-byte
item type, 1 reserved byte, 2-byte big-endian length, content. -/
def ulItem (itemType : Nat) (content : List Nat) : List Nat :=
  itemType :: 0 :: beU16 content.length ++ content

/-- Modelled from the spec: a proposed presentation-context item of an
A-ASSOCIATE-RQ (0x20): context id, 3 reserved bytes, abstract-syntax
sub-item (0x30), transfer-syntax sub-items (0x40). -/
def rqPresentationContextItemBytes (pc : PresentationContextItem) : List Nat :=
  ulItem 0x20 ([pc.id, 0, 0, 0]
    ++ ulItem 0x30 (strBytes pc.abstract_syntax)
    ++ (pc.transfer_syntaxes.map (fun ts => ulItem 0x40 (strBytes ts))).flatten)

/-- Modelled from the spec: a presentation-context result item of an
A-ASSOCIATE-AC (0x21): context id, reserved, result, reserved, accepted
transfer-syntax sub-item (0x40). -/
def acPresentationContextItemBytes (r : AcResultItem) : List Nat :=
  ulItem 0x21 ([r.id, 0, r.result, 0] ++ ulItem 0x40 (strBytes r.transfer_syntax))

/-- Modelled from the spec: the user-information item (0x50) with maximum
PDU length (0x51), implementation class UID (0x52) and implementation
version name (0x55) sub-items. -/
def userInformationItemBytes (maxPdu : Nat) (implUid implVer : String) :
    List Nat :=
  ulItem 0x50 (ulItem 0x51 (beU32 maxPdu) ++ ulItem 0x52 (strBytes implUid)
    ++ ulItem 0x55 (strBytes implVer))

/-- Modelled from the spec: the fixed A-ASSOCIATE-RQ/AC shell — PDU type,
reserved byte, 4-byte big-endian length, protocol version 1, 2 reserved
bytes, 16-byte called AE title at PDU offsets 10-26, 16-byte calling AE
title at offsets 26-42, 32 reserved bytes, then the variable items. -/
def associateShell (pduType : Nat) (called calling : String)
    (variableItems : List Nat) : List Nat :=
  let body := [0, 1, 0, 0] ++ aeField called ++ aeField calling
    ++ List.replicate 32 0 ++ variableItems
  pduType :: 0 :: beU32 body.length ++ body

def DEFAULT_MAX_PDU_LENGTH : Nat := 16384

def DEFAULT_IMPLEMENTATION_VERSION_NAME : String := "PYDICOM_GEN_V1"

def DEFAULT_APPLICATION_CONTEXT_NAME : String := "1.2.840.10008.3.1.1.1"

/-- Modelled from the spec: `utils.create_associate_rq_pdu` — application
context item, proposed presentation contexts, user-information item. -/
def create_associate_rq_pdu (calling_ae called_ae appCtx : String)
    (pcs : List PresentationContextItem) (maxPdu : Nat)
    (implUid implVer : String) : List Nat :=
  associateShell 0x01 called_ae calling_ae
    (ulItem 0x10 (strBytes appCtx)
      ++ (pcs.map rqPresentationContextItemBytes).flatten
      ++ userInformationItemBytes maxPdu implUid implVer)

/-- Modelled from the spec: `utils.create_associate_ac_pdu` — application
context item, presentation-context results, user-information item. -/
def create_associate_ac_pdu (calling_ae called_ae appCtx : String)
    (results : List AcResultItem) (maxPdu : Nat)
    (implUid implVer : String) : List Nat :=
  associateShell 0x02 called_ae calling_ae
    (ulItem 0x10 (strBytes appCtx)
      ++ (results.map acPresentationContextItemBytes).flatten
      ++ userInformationItemBytes maxPdu implUid implVer)

/-- Python `a or b` on optional strings (the empty string is falsy). -/
def pyOrStr (a b : Option String) : Option String :=
  match a with
  | some s => if s = "" then b else some s
  | none => b

/-- `create_scene_associate_rq_pdu` (pdu_wrappers.py lines 18-91): AE
titles from the link overrides or the resolved asset properties, default
application context and max PDU length, implementation details from the
SCU.  A `None` AE title or implementation class UID is modelled as the
empty string (pynetdicom would reject it; the scenes considered always
set these fields). -/
def create_scene_associate_rq_pdu (cfg : LinkDicomConfiguration)
    (scuProps scpProps : AssetDicomProperties) : List Nat :=
  let calling := (pyOrStr cfg.calling_ae_title_override scuProps.ae_title).getD ""
  let called := (pyOrStr cfg.called_ae_title_override scpProps.ae_title).getD ""
  let pcs := cfg.explicit_presentation_contexts.getD []
  create_associate_rq_pdu calling called DEFAULT_APPLICATION_CONTEXT_NAME pcs
    DEFAULT_MAX_PDU_LENGTH (scuProps.implementation_class_uid.getD "")
    ((pyOrStr scuProps.implementation_version_name
      (some DEFAULT_IMPLEMENTATION_VERSION_NAME)).getD "")

/-- `create_scene_associate_ac_pdu` (pdu_wrappers.py lines 94-147):
echoes the RQ's AE titles, implementation details from the SCP. -/
def create_scene_associate_ac_pdu (callingAe calledAe : String)
    (scpProps : AssetDicomProperties) (appCtx : String)
    (results : List AcResultItem) : List Nat :=
  create_associate_ac_pdu callingAe calledAe appCtx results
    DEFAULT_MAX_PDU_LENGTH (scpProps.implementation_class_uid.getD "")
    ((pyOrStr scpProps.implementation_version_name
      (some DEFAULT_IMPLEMENTATION_VERSION_NAME)).getD "")

/-- A synthesized packet with its Ether/IP/TCP addressing (handler.py
attaches one of two fixed Ether/IP headers according to direction). -/
structure NetPacket where
  src_mac : String
  dst_mac : String
  src_ip : String
  dst_ip : String
  sport : Nat
  dport : Nat
  flags : String
  seq : Nat
  ack : Nat
  payload : List Nat
  deriving Repr, DecidableEq

/-- handler.py lines 176-180: client packets carry
source→destination addressing, server packets the reverse. -/
def addNetworkLayers (cd : LinkConnectionDetails) (p : TcpPacket) : NetPacket :=
  if p.fromClient then
    ⟨cd.source_mac, cd.destination_mac, cd.source_ip, cd.destination_ip,
      cd.source_port, cd.destination_port, p.flags, p.seq, p.ack, p.payload⟩
  else
    ⟨cd.destination_mac, cd.source_mac, cd.destination_ip, cd.source_ip,
      cd.destination_port, cd.source_port, p.flags, p.seq, p.ack, p.payload⟩

/-- scene_processor.py lines 295-301: the first accepted context whose
proposed abstract syntax is Verification. -/
def findVerificationPcId (rq : List PresentationContextItem)
    (ac : List AcResultItem) : Option Nat :=
  (ac.find? (fun r =>
    match rq.find? (fun m => m.id == r.id) with
    | some m => m.abstract_syntax == "1.2.840.10008.1.1" && r.result == 0
    | none => false)).map (fun r => r.id)

/-- scene_processor.py lines 305-314: the auto-generated C-ECHO-RQ. -/
def defaultEchoOperation (pcId : Nat) : DimseOperation :=
  ⟨"Automatic C-ECHO Request", "C-ECHO-RQ", pcId,
   ⟨1, none, some "1.2.840.10008.1.1", none, []⟩, none⟩

/-- `rules.get(k) == v` for a string-valued rule. -/
def ruleGetIsStr (rules : RuleMapI) (k v : String) : Bool :=
  match dictGet rules.toList k with
  | some r => ruleIsStr r v
  | none => false

/-- scene_processor.py lines 322-328: pre-generate a shared
AffectedSOPInstanceUID for a C-STORE whose command set carries the
generation sentinel and whose rules request the command's UID. -/
def sharedUidForOp (op : DimseOperation) (g : Nat) : Option String × Nat :=
  match op.dataset_content_rules with
  | some rules =>
    let affectedAuto := match op.command_set.AffectedSOPInstanceUID with
      | some u => u == "AUTO_GENERATE_UID_INSTANCE"
      | none => false
    if op.message_type == "C-STORE-RQ" && affectedAuto
        && !rules.toList.isEmpty
        && ruleGetIsStr rules "SOPInstanceUID"
          "AUTO_FROM_COMMAND_AFFECTED_SOP_INSTANCE_UID" then
      let r := pydicom_generate_uid DEFAULT_UID_ROOT g
      (some r.1, r.2)
    else (none, g)
  | none => (none, g)

/-- scene_processor.py lines 330-336: the accepted transfer syntax for a
presentation-context id, if any. -/
def findAcceptedTs (ac : List AcResultItem) (pcId : Nat) : Option String :=
  (ac.find? (fun r => r.id == pcId && r.result == 0)).map
    (fun r => r.transfer_syntax)

/-- The DIMSE loop of `process_scene` (scene_processor.py lines 320-353):
per operation, maybe pre-generate a shared UID, skip the operation when
its presentation context was not accepted, else emit its P-DATA-TF
PDUs. -/
def dimseLoop (scuProps scpProps : AssetDicomProperties)
    (ac : List AcResultItem) (today : String) :
    List DimseOperation → Nat → List (List Nat) × Nat
  | [], g => ([], g)
  | op :: rest, g =>
    let su := sharedUidForOp op g
    match findAcceptedTs ac op.presentation_context_id with
    | none => dimseLoop scuProps scpProps ac today rest su.2
    | some ts =>
      let r := generate_p_data_tf_pdus_for_dimse_operation op scuProps
        scpProps ts su.1 today su.2
      let t := dimseLoop scuProps scpProps ac today rest r.2
      (r.1 ++ t.1, t.2)

/-- The body of the per-link `try` block of `process_scene`
(scene_processor.py lines 230-364): resolve SCU/SCP properties, derive
connection details, negotiate presentation contexts (populating the
link's explicit contexts in auto mode), build the association PDUs (the
AC only when there are results to respond to), determine the DIMSE
sequence (auto C-ECHO when empty and Verification was accepted), emit the
P-DATA-TF PDUs and the TCP session packets.  Returns the link's packets
or the raised error, together with the updated resolution cache and
generator. -/
def process_link (assetMap : List (String × Asset))
    (templates : List (String × AssetDicomProperties))
    (cache : List (String × AssetDicomProperties)) (link : Link)
    (today : String) (g : Nat) :
    Except SceneError (List NetPacket)
      × List (String × AssetDicomProperties) × Nat :=
  match get_resolved_dicom_properties assetMap templates cache
      link.dicom_config.scu_asset_id_ref with
  | Except.error e => (Except.error e, cache, g)
  | Except.ok (scuProps, cache1) =>
    match get_resolved_dicom_properties assetMap templates cache1
        link.dicom_config.scp_asset_id_ref with
    | Except.error e => (Except.error e, cache1, g)
    | Except.ok (scpProps, cache2) =>
      match derive_connection_details assetMap link g with
      | Except.error e => (Except.error e, cache2, g)
      | Except.ok (cd, g1) =>
        let cfg := link.dicom_config
        let neg := negotiate_presentation_contexts
          cfg.explicit_presentation_contexts scuProps scpProps
        let cfg2 : LinkDicomConfiguration :=
          ⟨cfg.scu_asset_id_ref, cfg.scp_asset_id_ref,
           cfg.calling_ae_title_override, cfg.called_ae_title_override,
           some neg.1, cfg.dimse_sequence⟩
        let rqBytes := create_scene_associate_rq_pdu cfg2 scuProps scpProps
        let callingAe :=
          (pyOrStr cfg.calling_ae_title_override scuProps.ae_title).getD ""
        let calledAe :=
          (pyOrStr cfg.called_ae_title_override scpProps.ae_title).getD ""
        let acBytes := if neg.2.isEmpty then [] else
          create_scene_associate_ac_pdu callingAe calledAe scpProps
            DEFAULT_APPLICATION_CONTEXT_NAME neg.2
        let seq := if cfg.dimse_sequence.isEmpty then
            match findVerificationPcId neg.1 neg.2 with
            | some pcId => [defaultEchoOperation pcId]
            | none => []
          else cfg.dimse_sequence
        let dl := dimseLoop scuProps scpProps neg.2 today seq g1
        let pkts := (generate_dicom_session_packet_list rqBytes acBytes dl.1).map
          (addNetworkLayers cd)
        (Except.ok pkts, cache2, dl.2)

/-- The link loop of `process_scene` (scene_processor.py lines 228-377):
`AssetNotFoundError` is re-raised and aborts the whole scene; any other
`DicomSceneProcessorError` (in particular `NodeNotFoundError`) or
unexpected exception only skips the link. -/
def processLinks (assetMap : List (String × Asset))
    (templates : List (String × AssetDicomProperties)) (today : String) :
    List Link → List (String × AssetDicomProperties) → Nat → List NetPacket →
    Except SceneError (List NetPacket × Nat)
  | [], _, g, acc => Except.ok (acc, g)
  | link :: rest, cache, g, acc =>
    let r := process_link assetMap templates cache link today g
    match r.1 with
    | Except.ok pkts =>
      processLinks assetMap templates today rest r.2.1 r.2.2 (acc ++ pkts)
    | Except.error (.assetNotFound i) => Except.error (.assetNotFound i)
    | Except.error (.nodeNotFound _ _) =>
      processLinks assetMap templates today rest r.2.1 r.2.2 acc
    | Except.error (.processorError _) =>
      processLinks assetMap templates today rest r.2.1 r.2.2 acc

/-- scene_processor.py lines 224-226: pre-resolve every asset of the
scene (outside the per-link `try`, so any failure aborts the scene). -/
def preResolveAssets (assetMap : List (String × Asset))
    (templates : List (String × AssetDicomProperties)) :
    List Asset → List (String × AssetDicomProperties) →
    Except SceneError (List (String × AssetDicomProperties))
  | [], cache => Except.ok cache
  | a :: rest, cache =>
    match get_resolved_dicom_properties assetMap templates cache a.asset_id with
    | Except.error e => Except.error e
    | Except.ok (_, cache2) => preResolveAssets assetMap templates rest cache2

/-- `process_scene` (scene_processor.py lines 218-379). -/
def process_scene (scene : Scene)
    (templates : List (String × AssetDicomProperties))
    (today : String) (g : Nat) : Except SceneError (List NetPacket × Nat) :=
  let assetMap := buildAssetMap scene.assets
  match preResolveAssets assetMap templates scene.assets [] with
  | Except.error e => Except.error e
  | Except.ok cache => processLinks assetMap templates today scene.links cache g []

/-- C2: corrected error policy of `process_scene` — a link whose
processing raises `NodeNotFoundError` (leaving the resolution cache and
generator unchanged) is only skipped, the remaining links being processed
as if it were absent; only `AssetNotFoundError` aborts the entire
scene. -/
theorem C2_scene_error_policy :
    (∀ (assetMap : List (String × Asset))
       (templates : List (String × AssetDicomProperties))
       (link : Link) (rest : List Link)
       (cache : List (String × AssetDicomProperties)) (today : String)
       (g : Nat) (acc : List NetPacket) (a n : String),
       process_link assetMap templates cache link today g =
         (Except.error (.nodeNotFound a n), cache, g) →
       processLinks assetMap templates today (link :: rest) cache g acc =
         processLinks assetMap templates today rest cache g acc) ∧
    (∀ (assetMap : List (String × Asset))
       (templates : List (String × AssetDicomProperties))
       (link : Link) (rest : List Link)
       (cache : List (String × AssetDicomProperties)) (today : String)
       (g : Nat) (acc : List NetPacket) (i : String),
       (process_link assetMap templates cache link today g).1 =
         Except.error (.assetNotFound i) →
       processLinks assetMap templates today (link :: rest) cache g acc =
         Except.error (.assetNotFound i)) := by
  constructor
  · intro assetMap templates link rest cache today g acc a n h
    simp only [processLinks, h]
  · intro assetMap templates link rest cache today g acc i h
    simp only [processLinks, h]

def C2propsA : AssetDicomProperties :=
  ⟨some "SCU1", some "1.2.3.4", some "V1", some "Acme", none, none, none, []⟩

def C2propsB : AssetDicomProperties :=
  ⟨some "SCP1", some "1.2.3.5", some "V1", none, none, none, none, []⟩

def C2assetA : Asset :=
  ⟨"A", "Modality A", none, [⟨"A1", "10.0.0.1", "00:00:00:00:00:01", some 11112⟩],
   C2propsA⟩

def C2assetB : Asset :=
  ⟨"B", "PACS B", none, [⟨"B1", "10.0.0.2", "00:00:00:00:00:02", some 104⟩],
   C2propsB⟩

def C2cfg : LinkDicomConfiguration :=
  ⟨"A", "B", none, none,
   some [⟨1, "1.2.840.10008.1.1", ["1.2.840.10008.1.2"]⟩], []⟩

/-- A link whose source node id does not exist in asset "A". -/
def C2badLink : Link := ⟨"L1", "A", "NOPE", "B", "B1", none, C2cfg⟩

def C2goodLink : Link := ⟨"L2", "A", "A1", "B", "B1", none, C2cfg⟩

def C2scene : Scene :=
  ⟨"S1", "scene", [C2assetA, C2assetB], [C2badLink, C2goodLink]⟩

def C2sceneGood : Scene :=
  ⟨"S1", "scene", [C2assetA, C2assetB], [C2goodLink]⟩

/-- C2 counterexample: a scene whose first link references the
non-existent node "NOPE" is not aborted — `process_scene` returns
normally, yields exactly the packets of the remaining valid link (13
packets: the auto-generated C-ECHO session), refuting the claim that a
bad node reference aborts the entire scene with no packet list. -/
theorem C2_counterexample :
    process_scene C2scene [] "20240101" 0 =
      process_scene C2sceneGood [] "20240101" 0 ∧
    (match process_scene C2sceneGood [] "20240101" 0 with
     | Except.ok (pkts, _) => pkts.length == 13
     | Except.error _ => false) = true := by
  exact ⟨rfl, rfl⟩

def C2assetMap : List (String × Asset) := buildAssetMap [C2assetA, C2assetB]

def C2cache : List (String × AssetDicomProperties) :=
  [("A", C2propsA), ("B", C2propsB)]

/-- A link whose SCU asset reference does not exist in the scene. -/
def C2missingLink : Link :=
  ⟨"L3", "A", "A1", "B", "B1", none, ⟨"MISSING", "B", none, none, some [], []⟩⟩

theorem C2_scene_error_policy_witness :
    processLinks C2assetMap [] "20240101" [C2badLink] C2cache 0 [] =
      processLinks C2assetMap [] "20240101" [] C2cache 0 [] ∧
    processLinks C2assetMap [] "20240101" [C2missingLink] C2cache 0 [] =
      Except.error (.assetNotFound "MISSING") := by
  constructor
  · exact C2_scene_error_policy.1 C2assetMap [] C2badLink [] C2cache
      "20240101" 0 [] "A" "NOPE" rfl
  · exact C2_scene_error_policy.2 C2assetMap [] C2missingLink [] C2cache
      "20240101" 0 [] "MISSING" rfl

theorem and_two_ne_zero_iff_testBit (m : Nat) :
    (m &&& 2 != 0) = Nat.testBit m 1 := by
  have h2 : m &&& 2 = (Nat.testBit m 1).toNat * 2 := by
    simpa using Nat.and_two_pow m 1
  rw [h2]
  rcases hb : Nat.testBit m 1 <;> simp

theorem and_one_ne_zero_iff_testBit (m : Nat) :
    (m &&& 1 != 0) = Nat.testBit m 0 := by
  have h1 : m &&& 1 = (Nat.testBit m 0).toNat * 1 := by
    simpa using Nat.and_two_pow m 0
  rw [h1]
  rcases hb : Nat.testBit m 0 <;> simp

/-- C1: code bug — the extractor swaps the two message-control-header
bits.  The repo's own encoder places 0x03 (command) or 0x02 (data, with
the last-fragment bit, bit1, set) at PDU offset 11; the extractor however
classifies a PDV as a command exactly when bit1 is set and as a last
fragment exactly when bit0 is set, so the encoder's data PDV 0x02 is
mis-read as a non-final command fragment and a hypothetical 0x01 PDV as a
final data fragment — the opposite of the claimed (and standard) bit0 =
command, bit1 = last-fragment layout. -/
theorem C1_extractor_mch_bits :
    ((∀ ds pcid, (create_p_data_tf_pdu ds pcid true).getD 11 0 = 0x03) ∧
     (∀ ds pcid, (create_p_data_tf_pdu ds pcid false).getD 11 0 = 0x02)) ∧
    (extractor_pdv_is_command 0x02 = true ∧
     extractor_pdv_is_last_fragment 0x02 = false ∧
     extractor_pdv_is_command 0x01 = false ∧
     extractor_pdv_is_last_fragment 0x01 = true) ∧
    (∀ mch, extractor_pdv_is_command mch = Nat.testBit mch 1) ∧
    (∀ mch, extractor_pdv_is_last_fragment mch = Nat.testBit mch 0) := by
  refine ⟨⟨?_, ?_⟩, ⟨by decide, by decide, by decide, by decide⟩, ?_, ?_⟩
  · intro ds pcid
    simp [create_p_data_tf_pdu, beU32, List.cons_append, List.nil_append,
      List.getD_cons_succ, List.getD_cons_zero]
  · intro ds pcid
    simp [create_p_data_tf_pdu, beU32, List.cons_append, List.nil_append,
      List.getD_cons_succ, List.getD_cons_zero]
  · intro mch
    exact and_two_ne_zero_iff_testBit mch
  · intro mch
    exact and_one_ne_zero_iff_testBit mch

/-! ### Traffic extractor (backend/dicom_pcap_extractor.py) -/

/-- The `found_metadata` dict of `extract_relevant_metadata`: AE titles
are stripped strings, the remaining entries hold raw element values.  An
entry that is absent and one set to `None` behave identically in the
source (`'X' not in found_metadata or found_metadata['X'] is None`), so
both are modelled as `none`. -/
structure FoundMetadata where
  CallingAE : Option String
  CalledAE : Option String
  ImplementationClassUID : Option DicomValue
  ImplementationVersionName : Option DicomValue
  Manufacturer : Option DicomValue
  ManufacturerModelName : Option DicomValue
  DeviceSerialNumber : Option DicomValue
  SoftwareVersions : Option DicomValue
  TransducerData : Option DicomValue
  StationName : Option DicomValue

def emptyFound : FoundMetadata :=
  ⟨none, none, none, none, none, none, none, none, none, none⟩

/-- The string value of an element, if it is a string. -/
def dsGetStr (ds : Dataset) (kw : String) : Option String :=
  match dsGet ds kw with
  | some (.str s) => some s
  | _ => none

/-- dicom_pcap_extractor.py lines 200-226: a successfully parsed
A-ASSOCIATE-RQ body.  `CallingAETitle`, `CalledAETitle`,
`UserInformation` and `PresentationContext` are association-PDU
attributes, not DICOM dataset keywords, so `Dataset.get` yields the
default and `hasattr` is false for any dataset this codec can parse: the
AE titles become stripped empty-string defaults and the implementation
fields and context dict are untouched. -/
def absorbAssociateRq (found : FoundMetadata) (ds : Dataset) : FoundMetadata :=
  let calling := pyStrip ((dsGetStr ds "CallingAETitle").getD "")
  let called := pyStrip ((dsGetStr ds "CalledAETitle").getD "")
  ⟨some calling, some called, found.ImplementationClassUID,
   found.ImplementationVersionName, found.Manufacturer,
   found.ManufacturerModelName, found.DeviceSerialNumber,
   found.SoftwareVersions, found.TransducerData, found.StationName⟩

/-- dicom_pcap_extractor.py lines 252-281: a successfully parsed
A-ASSOCIATE-AC body — AE titles only overwrite when non-empty. -/
def absorbAssociateAc (found : FoundMetadata) (ds : Dataset) : FoundMetadata :=
  let calling := pyStrip ((dsGetStr ds "CallingAETitle").getD "")
  let called := pyStrip ((dsGetStr ds "CalledAETitle").getD "")
  ⟨if calling = "" then found.CallingAE else some calling,
   if called = "" then found.CalledAE else some called,
   found.ImplementationClassUID, found.ImplementationVersionName,
   found.Manufacturer, found.ManufacturerModelName,
   found.DeviceSerialNumber, found.SoftwareVersions, found.TransducerData,
   found.StationName⟩

/-- dicom_pcap_extractor.py lines 340-353: take the first non-null
occurrence of each searched tag from a parsed P-DATA dataset. -/
def absorbPdataFields (found : FoundMetadata) (ds : Dataset) : FoundMetadata :=
  ⟨found.CallingAE, found.CalledAE, found.ImplementationClassUID,
   found.ImplementationVersionName,
   overrideField found.Manufacturer (dsGet ds "Manufacturer"),
   overrideField found.ManufacturerModelName (dsGet ds "ManufacturerModelName"),
   overrideField found.DeviceSerialNumber (dsGet ds "DeviceSerialNumber"),
   overrideField found.SoftwareVersions (dsGet ds "SoftwareVersions"),
   overrideField found.TransducerData (dsGet ds "TransducerData"),
   overrideField found.StationName (dsGet ds "StationName")⟩

/-- `p_data_fragments[ctx] += data` on the `defaultdict(bytes)`. -/
def bufAppend : List (Nat × List Nat) → Nat → List Nat → List (Nat × List Nat)
  | [], ctx, d => [(ctx, d)]
  | e :: rest, ctx, d =>
    if e.1 == ctx then (e.1, e.2 ++ d) :: rest else e :: bufAppend rest ctx d

def bufGet (bufs : List (Nat × List Nat)) (ctx : Nat) : List Nat :=
  ((bufs.find? (fun e => e.1 == ctx)).map Prod.snd).getD []

/-- `del p_data_fragments[ctx]`. -/
def bufDelete : List (Nat × List Nat) → Nat → List (Nat × List Nat)
  | [], _ => []
  | e :: rest, ctx => if e.1 == ctx then rest else e :: bufDelete rest ctx

/-- The PDV loop of the P-DATA-TF branch (dicom_pcap_extractor.py lines
299-374), fuel-structural on the remaining PDU bytes: read the 5-byte PDV
header (4-byte big-endian item length, context id), read `length - 1`
bytes (a zero length is Python `read(-1)`: everything), classify the
message-control-header with the extractor's (swapped) masks, buffer the
fragment, and on a "last fragment" try to parse the reassembled buffer as
a dataset, clearing the buffer afterwards.  An empty PDV data field
raises `IndexError` on `[0]` and stops the PDU's parse. -/
def pdvLoop : Nat → List Nat → List (Nat × List Nat) → FoundMetadata → Bool →
    List (Nat × List Nat) × FoundMetadata × Bool
  | 0, _, bufs, found, parsed => (bufs, found, parsed)
  | fuel + 1, rest, bufs, found, parsed =>
    if rest.length < 5 then (bufs, found, parsed)
    else
      let pdvLen := beU32dec (rest.getD 0 0) (rest.getD 1 0) (rest.getD 2 0)
        (rest.getD 3 0)
      let ctx := rest.getD 4 0
      let afterHdr := rest.drop 5
      let data := if pdvLen = 0 then afterHdr else afterHdr.take (pdvLen - 1)
      if pdvLen ≠ 0 ∧ data.length < pdvLen - 1 then (bufs, found, parsed)
      else
        match data with
        | [] => (bufs, found, parsed)
        | mch :: actual =>
          let bufs1 := bufAppend bufs ctx actual
          if extractor_pdv_is_last_fragment mch then
            let fragment := bufGet bufs1 ctx
            if fragment.isEmpty then
              pdvLoop fuel (afterHdr.drop data.length) bufs1 found parsed
            else
              match parse_dataset fragment with
              | some ds =>
                pdvLoop fuel (afterHdr.drop data.length) (bufDelete bufs1 ctx)
                  (absorbPdataFields found ds) true
              | none =>
                pdvLoop fuel (afterHdr.drop data.length) (bufDelete bufs1 ctx)
                  found parsed
          else
            pdvLoop fuel (afterHdr.drop data.length) bufs1 found parsed

/-- The main PDU loop of `extract_relevant_metadata`
(dicom_pcap_extractor.py lines 173-393), fuel-structural: read PDUs until
the stream is exhausted or `read_pdu` fails; A-ASSOCIATE-RQ/AC bodies go
through the dataset parser (resetting the corresponding context dict on
success — for this codec a parsed dataset never carries the
`PresentationContext` attribute, so the dicts stay empty), P-DATA-TF
bodies through the PDV loop.  State: found metadata, proposed RQ context
ids, AC context results (id, result), fragment buffers, P-DATA parse
success flag. -/
def extractLoop : Nat → ByteStream → FoundMetadata → List Nat →
    List (Nat × Nat) → List (Nat × List Nat) → Bool →
    FoundMetadata × List Nat × List (Nat × Nat) × Bool
  | 0, _, found, rqCtx, acCtx, _, parsed => (found, rqCtx, acCtx, parsed)
  | fuel + 1, s, found, rqCtx, acCtx, bufs, parsed =>
    if s.data.length ≤ s.pos then (found, rqCtx, acCtx, parsed)
    else
      let r := read_pdu s
      match r.1 with
      | none => (found, rqCtx, acCtx, parsed)
      | some (ty, _, data) =>
        if ty = 1 then
          match parse_dataset data with
          | some ds =>
            extractLoop fuel r.2 (absorbAssociateRq found ds) [] acCtx bufs parsed
          | none => extractLoop fuel r.2 found rqCtx acCtx bufs parsed
        else if ty = 2 then
          match parse_dataset data with
          | some ds =>
            extractLoop fuel r.2 (absorbAssociateAc found ds) rqCtx [] bufs parsed
          | none => extractLoop fuel r.2 found rqCtx acCtx bufs parsed
        else if ty = 4 then
          let p := pdvLoop (data.length + 1) data bufs found parsed
          extractLoop fuel r.2 p.2.1 rqCtx acCtx p.1 p.2.2
        else extractLoop fuel r.2 found rqCtx acCtx bufs parsed

/-- The metadata object built by `extract_relevant_metadata`. -/
structure ExtractedMetadata where
  CallingAE : Option String
  CalledAE : Option String
  ImplementationClassUID : Option DicomValue
  ImplementationVersionName : Option DicomValue
  negotiation_successful : Option Bool
  Manufacturer : Option DicomValue
  ManufacturerModelName : Option DicomValue
  DeviceSerialNumber : Option DicomValue
  SoftwareVersions : Option DicomValue
  TransducerData : Option DicomValue
  StationName : Option DicomValue

/-- Python truthiness of an optional string (None and "" are falsy). -/
def optStrTruthy (s : Option String) : Bool :=
  match s with
  | some v => v ≠ ""
  | none => false

/-- `extract_relevant_metadata` (dicom_pcap_extractor.py lines 137-465)
on a reassembled stream: run the PDU loop, then return a metadata object
when both AE titles were found or some P-DATA dataset parsed, with the
negotiation flag computed from the (here always empty) context dicts. -/
def extract_relevant_metadata (streamData : List Nat) : Option ExtractedMetadata :=
  let r := extractLoop (streamData.length + 1) ⟨streamData, 0⟩ emptyFound
    [] [] [] false
  let found := r.1
  let rqCtx := r.2.1
  let acCtx := r.2.2.1
  let parsed := r.2.2.2
  if optStrTruthy found.CallingAE && optStrTruthy found.CalledAE || parsed then
    let anyAccepted := !rqCtx.isEmpty && !acCtx.isEmpty
      && rqCtx.any (fun cid =>
        match acCtx.find? (fun a => a.1 == cid) with
        | some a => a.2 == 0
        | none => false)
    some ⟨found.CallingAE, found.CalledAE, found.ImplementationClassUID,
      found.ImplementationVersionName,
      if acCtx.isEmpty then none else some anyAccepted,
      found.Manufacturer, found.ManufacturerModelName,
      found.DeviceSerialNumber, found.SoftwareVersions, found.TransducerData,
      found.StationName⟩
  else none

/-- Generic Python-dict upsert for arbitrary key types. -/
def keyedUpsert {κ α : Type} [BEq κ] (k : κ) (v : α) :
    List (κ × α) → List (κ × α)
  | [] => [(k, v)]
  | e :: rest => if e.1 == k then (k, v) :: rest else e :: keyedUpsert k v rest

def keyedGet {κ α : Type} [BEq κ] (m : List (κ × α)) (k : κ) : Option α :=
  (m.find? (fun e => e.1 == k)).map Prod.snd

/-- One `ae_titles_from_summary` entry. -/
structure AeSummary where
  CallingAE : Option String
  CalledAE : Option String
  deriving Repr, DecidableEq

/-- One step of the extractor's first pass (dicom_pcap_extractor.py lines
523-568): for a packet whose raw payload is at least 42 bytes and starts
with PDU type 0x01 or 0x02, decode the called AE title from payload bytes
10-26 and the calling AE title from bytes 26-42, and store any non-empty
title under the direction-dependent key — (src, dst, dport) for an RQ,
(src, dst, sport) for an AC. -/
def rawScanStep (m : List ((String × String × Nat) × AeSummary))
    (pkt : NetPacket) : List ((String × String × Nat) × AeSummary) :=
  let payload := pkt.payload
  if 42 ≤ payload.length ∧ (payload.getD 0 0 = 1 ∨ payload.getD 0 0 = 2) then
    let called := pyStrip (bytesToStr ((payload.drop 10).take 16))
    let calling := pyStrip (bytesToStr ((payload.drop 26).take 16))
    if called ≠ "" ∨ calling ≠ "" then
      let key := if payload.getD 0 0 = 1 then (pkt.src_ip, pkt.dst_ip, pkt.dport)
        else (pkt.src_ip, pkt.dst_ip, pkt.sport)
      let cur := (keyedGet m key).getD ⟨none, none⟩
      let cur1 : AeSummary :=
        ⟨if calling ≠ "" then some calling else cur.CallingAE,
         if called ≠ "" then some called else cur.CalledAE⟩
      keyedUpsert key cur1 m
    else m
  else m

/-- Scapy `packets.sessions()` keys TCP packets by the directed 4-tuple
(src, sport, dst, dport); sessions appear in first-packet order and keep
packet order. -/
def sessionKey (p : NetPacket) : String × Nat × String × Nat :=
  (p.src_ip, p.sport, p.dst_ip, p.dport)

def sessionAppend {κ : Type} [BEq κ] :
    List (κ × List NetPacket) → κ → NetPacket → List (κ × List NetPacket)
  | [], k, p => [(k, [p])]
  | e :: rest, k, p =>
    if e.1 == k then (e.1, e.2 ++ [p]) :: rest else e :: sessionAppend rest k p

def groupSessions (pkts : List NetPacket) :
    List ((String × Nat × String × Nat) × List NetPacket) :=
  pkts.foldl (fun m p => sessionAppend m (sessionKey p) p) []

/-- `pkt[TCP].flags & 0x02` — the SYN bit of a Scapy flag string. -/
def flagsHasSyn (f : String) : Bool := f.data.contains 'S'

/-- One `results_by_ip` entry. -/
structure CommRecord where
  client_ip : String
  server_ip : String
  server_port : Nat
  metadata : ExtractedMetadata

/-- dicom_pcap_extractor.py lines 682-687: override an AE title that is
missing or empty in the stream result with the raw-scan value, if any. -/
def fillAe (cur summ : Option String) : Option String :=
  if cur.getD "" = "" then
    match summ with
    | some s => some s
    | none => cur
  else cur

/-- One iteration of the extractor's second pass
(dicom_pcap_extractor.py lines 579-729): skip sessions of fewer than 3
packets, identify client/server from the first SYN-or-payload packet,
reassemble the flow's payload bytes in capture order (the synthesized
captures are already time/sequence ordered), skip duplicate streams, run
`extract_relevant_metadata`, and store either the (AE-merged) stream
metadata or a minimal raw-scan entry.  State: processed stream set and
`results_by_ip`. -/
def processSession (summary : List ((String × String × Nat) × AeSummary))
    (st : List (List Nat) × List ((String × String × Nat) × List CommRecord))
    (spkts : List NetPacket) :
    List (List Nat) × List ((String × String × Nat) × List CommRecord) :=
  if spkts.length < 3 then st
  else
    match spkts.find? (fun p => flagsHasSyn p.flags || !p.payload.isEmpty) with
    | none => st
    | some fp =>
      let client_ip := fp.src_ip
      let server_ip := fp.dst_ip
      let client_port := fp.sport
      let server_port := fp.dport
      let flow := spkts.filter (fun p =>
        (p.src_ip == client_ip && p.dst_ip == server_ip
          && p.sport == client_port && p.dport == server_port)
        || (p.src_ip == server_ip && p.dst_ip == client_ip
          && p.sport == server_port && p.dport == client_port))
      let streamData := (flow.map (fun p => p.payload)).flatten
      if streamData.isEmpty then st
      else if st.1.contains streamData then st
      else
        let processed := streamData :: st.1
        let commKey := (client_ip, server_ip, server_port)
        let summAes := (keyedGet summary commKey).getD ⟨none, none⟩
        match extract_relevant_metadata streamData with
        | some m =>
          let m2 : ExtractedMetadata :=
            ⟨fillAe m.CallingAE summAes.CallingAE,
             fillAe m.CalledAE summAes.CalledAE,
             m.ImplementationClassUID, m.ImplementationVersionName,
             m.negotiation_successful, m.Manufacturer,
             m.ManufacturerModelName, m.DeviceSerialNumber,
             m.SoftwareVersions, m.TransducerData, m.StationName⟩
          let cur := (keyedGet st.2 commKey).getD []
          (processed, keyedUpsert commKey
            (cur ++ [⟨client_ip, server_ip, server_port, m2⟩]) st.2)
        | none =>
          if optStrTruthy summAes.CallingAE || optStrTruthy summAes.CalledAE then
            let minimal : ExtractedMetadata :=
              ⟨summAes.CallingAE, summAes.CalledAE, none, none, none, none,
               none, none, none, none, none⟩
            let cur := (keyedGet st.2 commKey).getD []
            (processed, keyedUpsert commKey
              (cur ++ [⟨client_ip, server_ip, server_port, minimal⟩]) st.2)
          else (processed, st.2)

/-- One aggregated record (dicom_pcap_extractor.py lines 741-760). -/
structure AggRecord where
  client_ip : String
  server_ip : String
  CallingAE : Option String
  CalledAE : Option String
  ImplementationClassUID : Option DicomValue
  ImplementationVersionName : Option DicomValue
  negotiation_successful : Option Bool
  Manufacturer : Option DicomValue
  ManufacturerModelName : Option DicomValue
  DeviceSerialNumber : Option DicomValue
  SoftwareVersions : Option DicomValue
  TransducerData : Option DicomValue
  StationName : Option DicomValue
  server_ports : List Nat

def aggInit (cip sip : String) : AggRecord :=
  ⟨cip, sip, none, none, none, none, none, none, none, none, none, none,
   none, []⟩

/-- dicom_pcap_extractor.py lines 770-782: per field, keep the first
non-None value encountered. -/
def aggAbsorb (a : AggRecord) (m : ExtractedMetadata) : AggRecord :=
  ⟨a.client_ip, a.server_ip,
   overrideField a.CallingAE m.CallingAE,
   overrideField a.CalledAE m.CalledAE,
   overrideField a.ImplementationClassUID m.ImplementationClassUID,
   overrideField a.ImplementationVersionName m.ImplementationVersionName,
   overrideField a.negotiation_successful m.negotiation_successful,
   overrideField a.Manufacturer m.Manufacturer,
   overrideField a.ManufacturerModelName m.ManufacturerModelName,
   overrideField a.DeviceSerialNumber m.DeviceSerialNumber,
   overrideField a.SoftwareVersions m.SoftwareVersions,
   overrideField a.TransducerData m.TransducerData,
   overrideField a.StationName m.StationName,
   a.server_ports⟩

/-- `set.add`: insert a port if not present. -/
def insertPort (ports : List Nat) (p : Nat) : List Nat :=
  if ports.contains p then ports else ports ++ [p]

def insertNatSorted (x : Nat) : List Nat → List Nat
  | [] => [x]
  | y :: rest => if x ≤ y then x :: y :: rest else y :: insertNatSorted x rest

/-- `sorted(list(...))` for the final `server_ports`. -/
def sortNats (l : List Nat) : List Nat := l.foldr insertNatSorted []

def sortAggPorts (a : AggRecord) : AggRecord :=
  ⟨a.client_ip, a.server_ip, a.CallingAE, a.CalledAE,
   a.ImplementationClassUID, a.ImplementationVersionName,
   a.negotiation_successful, a.Manufacturer, a.ManufacturerModelName,
   a.DeviceSerialNumber, a.SoftwareVersions, a.TransducerData,
   a.StationName, sortNats a.server_ports⟩

/-- The aggregation pass (dicom_pcap_extractor.py lines 732-787): group
`results_by_ip` entries by the `"client-server"` IP-pair key, collect
server ports, and per metadata field keep the first non-None value. -/
def aggregateResults
    (results : List ((String × String × Nat) × List CommRecord)) :
    List (String × AggRecord) :=
  let m := results.foldl (fun agg e =>
    let aggKey := e.1.1 ++ "-" ++ e.1.2.1
    let cur := (keyedGet agg aggKey).getD (aggInit e.1.1 e.1.2.1)
    let cur1 : AggRecord :=
      ⟨cur.client_ip, cur.server_ip, cur.CallingAE, cur.CalledAE,
       cur.ImplementationClassUID, cur.ImplementationVersionName,
       cur.negotiation_successful, cur.Manufacturer,
       cur.ManufacturerModelName, cur.DeviceSerialNumber,
       cur.SoftwareVersions, cur.TransducerData, cur.StationName,
       insertPort cur.server_ports e.1.2.2⟩
    let cur2 := e.2.foldl (fun a c => aggAbsorb a c.metadata) cur1
    keyedUpsert aggKey cur2 agg) []
  m.map (fun e => (e.1, sortAggPorts e.2))

/-- `extract_dicom_metadata_from_pcap` (dicom_pcap_extractor.py lines
471-795) on an in-memory packet list: raw-payload first pass, per-session
second pass, aggregation by IP pair. -/
def extract_dicom_metadata_from_pcap (packets : List NetPacket) :
    List (String × AggRecord) :=
  let summary := packets.foldl rawScanStep []
  let sessions := groupSessions packets
  let r := sessions.foldl (fun st s => processSession summary st s.2) ([], [])
  aggregateResults r.2

def C3propsSCU : AssetDicomProperties :=
  ⟨some "SCU1", some "1.2.3.4", some "V1", some "Acme", none, none, none, []⟩

def C3propsSCP : AssetDicomProperties :=
  ⟨some "SCP1", some "1.2.3.5", some "V1", none, none, none, none, []⟩

def C3rules : RuleMapI := .cons "Manufacturer" (.str "Acme") .nil

def C3op : DimseOperation :=
  ⟨"Store image", "C-STORE-RQ", 1,
   ⟨1, some 0, some "1.2.840.10008.5.1.4.1.1.7", some "1.2.3.4.5.6", []⟩,
   some C3rules⟩

def C3cfg : LinkDicomConfiguration :=
  ⟨"SCU", "SCP", none, none,
   some [⟨1, "1.2.840.10008.5.1.4.1.1.7", ["1.2.840.10008.1.2.1"]⟩],
   [C3op]⟩

def C3link : Link :=
  ⟨"L1", "SCU", "N1", "SCP", "N2",
   some ⟨"00:00:00:00:00:01", "00:00:00:00:00:02", "10.0.0.1", "10.0.0.2",
     50000, 104⟩, C3cfg⟩

set_option maxRecDepth 100000

def C3scene : Scene :=
  ⟨"S3", "round trip",
   [⟨"SCU", "Modality", none,
     [⟨"N1", "10.0.0.1", "00:00:00:00:00:01", some 11112⟩], C3propsSCU⟩,
    ⟨"SCP", "PACS", none,
     [⟨"N2", "10.0.0.2", "00:00:00:00:00:02", some 104⟩], C3propsSCP⟩],
   [C3link]⟩

/-- C3: code bug — for the Scene with Calling AE "SCU1", Called AE "SCP1"
and a C-STORE whose data dataset carries Manufacturer "Acme" (first
conjunct: the built data dataset does hold Manufacturer "Acme"),
synthesizing packets and feeding them to the extractor yields an
aggregated record for the IP pair with CallingAE "SCU1" and CalledAE
"SCP1" (recovered by the raw-payload scan) but Manufacturer `None`
instead of "Acme": because the extractor swaps the message-control-header
bits, the data PDV (header 0x02) is never treated as a last fragment, so
the data dataset is never parsed and the Manufacturer value is lost. -/
theorem C3_extraction_round_trip :
    (match (build_data_dataset C3rules [] C3propsSCU C3propsSCP
        "20240101" 0).1 with
     | some ds =>
       match dsGet ds "Manufacturer" with
       | some (.str s) => s == "Acme"
       | _ => false
     | none => false) = true ∧
    (match process_scene C3scene [] "20240101" 0 with
     | Except.ok (pkts, _) =>
       match keyedGet (extract_dicom_metadata_from_pcap pkts)
           "10.0.0.1-10.0.0.2" with
       | some agg =>
         agg.CallingAE == some "SCU1" && agg.CalledAE == some "SCP1"
           && (match agg.Manufacturer with
               | none => true
               | some _ => false)
           && agg.server_ports == [104]
       | none => false
     | Except.error _ => false) = true := by
  exact ⟨rfl, rfl⟩

end TracesEditor
